import Mathlib

set_option maxHeartbeats 1000000
set_option maxRecDepth 8000

/-!
Shallow embedding of the BracketGPT prediction pipelines.

Two source files are embedded:
* `src/backend/data/BracketGPT_Unified_Pipeline.py` — namespace `Unified`;
* `src/backend/bracketgpt-update-v2/scripts/bracketgpt_pipeline.py` — namespace `V2`.

Modelling conventions: Python floats are modelled by `ℚ` (exact arithmetic);
where IEEE NaN propagation matters (pandas means over empty groups,
`np.where` guards) values are `Option ℚ` with `none` playing the role of
NaN/Inf; transcendental float operations (`10 ** x`, `np.log`, `** 10.25`)
are modelled over `ℝ`.  Python `round(x, n)` is round-half-to-even on the
scaled value.
-/

/-- Python `round` to an integer: round half to even. -/
def bankersRound (x : ℚ) : ℤ :=
  let f := ⌊x⌋
  let r := x - f
  if r < 1/2 then f
  else if 1/2 < r then f + 1
  else if f % 2 = 0 then f else f + 1

/-- Python `round(x, n)`: round half to even at the `n`-th decimal place. -/
def roundDp (n : ℕ) (x : ℚ) : ℚ := (bankersRound (x * 10 ^ n) : ℚ) / 10 ^ n

/-- `np.clip(x, lo, hi)` = `min(max(x, lo), hi)`. -/
def npClip (x lo hi : ℚ) : ℚ := min (max x lo) hi

theorem le_bankersRound (m : ℤ) (x : ℚ) (h : (m : ℚ) ≤ x) : m ≤ bankersRound x := by
  have hf : m ≤ ⌊x⌋ := Int.le_floor.mpr h
  unfold bankersRound
  dsimp only
  split_ifs <;> omega

theorem bankersRound_le (m : ℤ) (x : ℚ) (h : x ≤ (m : ℚ)) : bankersRound x ≤ m := by
  have hf : ⌊x⌋ ≤ m := by
    have := Int.floor_le_floor h
    simpa using this
  have hkey : ¬ (x - (⌊x⌋ : ℚ) < 1/2) → ⌊x⌋ + 1 ≤ m := by
    intro hr
    push_neg at hr
    by_contra hc
    have hm : m = ⌊x⌋ := by omega
    rw [hm] at h
    linarith
  unfold bankersRound
  dsimp only
  split_ifs with h1 h2 h3
  · exact hf
  · exact hkey h1
  · exact hf
  · exact hkey h1

theorem roundDp_le (n : ℕ) (m : ℤ) (x : ℚ) (h : x ≤ (m : ℚ) / 10 ^ n) :
    roundDp n x ≤ (m : ℚ) / 10 ^ n := by
  have hpow : (0 : ℚ) < 10 ^ n := by positivity
  have hs : x * 10 ^ n ≤ (m : ℚ) := by
    calc x * 10 ^ n ≤ ((m : ℚ) / 10 ^ n) * 10 ^ n :=
          mul_le_mul_of_nonneg_right h (le_of_lt hpow)
      _ = (m : ℚ) := by field_simp
  have hb : bankersRound (x * 10 ^ n) ≤ m := bankersRound_le m _ hs
  have hb' : ((bankersRound (x * 10 ^ n) : ℚ)) ≤ (m : ℚ) := by exact_mod_cast hb
  unfold roundDp
  gcongr

theorem le_roundDp (n : ℕ) (m : ℤ) (x : ℚ) (h : (m : ℚ) / 10 ^ n ≤ x) :
    (m : ℚ) / 10 ^ n ≤ roundDp n x := by
  have hpow : (0 : ℚ) < 10 ^ n := by positivity
  have hs : (m : ℚ) ≤ x * 10 ^ n := by
    calc (m : ℚ) = ((m : ℚ) / 10 ^ n) * 10 ^ n := by field_simp
      _ ≤ x * 10 ^ n := mul_le_mul_of_nonneg_right h (le_of_lt hpow)
  have hb : m ≤ bankersRound (x * 10 ^ n) := le_bankersRound m _ hs
  have hb' : (m : ℚ) ≤ ((bankersRound (x * 10 ^ n) : ℚ)) := by exact_mod_cast hb
  unfold roundDp
  gcongr

theorem npClip_le (x lo hi : ℚ) : npClip x lo hi ≤ hi := min_le_right _ _

theorem le_npClip (x lo hi : ℚ) (h : lo ≤ hi) : lo ≤ npClip x lo hi :=
  le_min (le_max_right x lo) h

/-! ### Archetype system (`ArchetypeEngine`, unified pipeline lines 171-341) -/

/-- The five ordered offense/defense tiers produced by `ArchetypeEngine.get_tier`. -/
inductive Tier
  | Elite
  | Good
  | Average
  | BelowAverage
  | Weak
deriving DecidableEq, Fintype

/-- The three tempo buckets produced by `ArchetypeEngine.get_tempo`. -/
inductive Tempo
  | Fast
  | Medium
  | Slow
deriving DecidableEq, Fintype

namespace Unified

/-- `ArchetypeEngine.ARCHETYPE_MAP` (lines 172-233), the fixed 60-entry table;
`none` models a key absent from the Python dict. -/
def ARCHETYPE_MAP : Tier → Tier → Tempo → Option String
  | .Elite, .Elite, .Fast => some "The Juggernaut"
  | .Elite, .Elite, .Slow => some "The Fortress"
  | .Elite, .Elite, .Medium => some "The Powerhouse"
  | .Elite, .Good, .Fast => some "The Sharpshooter"
  | .Elite, .Good, .Slow => some "The Sniper"
  | .Elite, .Good, .Medium => some "The Sniper"
  | .Elite, .Average, .Fast => some "The Gunslinger"
  | .Elite, .Average, .Slow => some "The Gunslinger"
  | .Elite, .Average, .Medium => some "The Gunslinger"
  | .Elite, .BelowAverage, .Fast => some "The Glass Cannon"
  | .Elite, .BelowAverage, .Slow => some "The Glass Cannon"
  | .Elite, .BelowAverage, .Medium => some "The Glass Cannon"
  | .Elite, .Weak, .Fast => some "The Glass Cannon"
  | .Elite, .Weak, .Slow => some "The Glass Cannon"
  | .Elite, .Weak, .Medium => some "The Glass Cannon"
  | .Good, .Elite, .Fast => some "The Crusher"
  | .Good, .Elite, .Slow => some "The Wall"
  | .Good, .Elite, .Medium => some "The Wall"
  | .Average, .Elite, .Fast => some "The Lockdown"
  | .Average, .Elite, .Slow => some "The Lockdown"
  | .Average, .Elite, .Medium => some "The Lockdown"
  | .BelowAverage, .Elite, .Fast => some "The Grinder"
  | .BelowAverage, .Elite, .Slow => some "The Grinder"
  | .BelowAverage, .Elite, .Medium => some "The Grinder"
  | .Weak, .Elite, .Fast => some "The Brick House"
  | .Weak, .Elite, .Slow => some "The Brick House"
  | .Weak, .Elite, .Medium => some "The Brick House"
  | .Good, .Good, .Fast => some "The Balanced Threat"
  | .Good, .Good, .Slow => some "The Fundamentals"
  | .Good, .Good, .Medium => some "The All-Arounder"
  | .Good, .Average, .Fast => some "The Run-and-Gun"
  | .Good, .Average, .Slow => some "The Half-Court Hero"
  | .Good, .Average, .Medium => some "The Scorer"
  | .Good, .BelowAverage, .Fast => some "The Run-and-Gun"
  | .Good, .BelowAverage, .Slow => some "The Half-Court Hero"
  | .Good, .BelowAverage, .Medium => some "The Scorer"
  | .Good, .Weak, .Fast => some "The Run-and-Gun"
  | .Good, .Weak, .Slow => some "The Half-Court Hero"
  | .Good, .Weak, .Medium => some "The Scorer"
  | .Average, .Good, .Fast => some "The Pressure Cooker"
  | .Average, .Good, .Slow => some "The Suffocator"
  | .Average, .Good, .Medium => some "The Defender"
  | .BelowAverage, .Good, .Fast => some "The Pressure Cooker"
  | .BelowAverage, .Good, .Slow => some "The Suffocator"
  | .BelowAverage, .Good, .Medium => some "The Defender"
  | .Weak, .Good, .Fast => some "The Defense-First"
  | .Weak, .Good, .Slow => some "The Defense-First"
  | .Weak, .Good, .Medium => some "The Defense-First"
  | .Average, .Average, .Fast => some "The Scrappy Squad"
  | .Average, .Average, .Slow => some "The Plodder"
  | .Average, .Average, .Medium => some "The Mid-Pack"
  | .Average, .BelowAverage, .Fast => some "The Offensive Minded"
  | .Average, .BelowAverage, .Slow => some "The Offensive Minded"
  | .Average, .BelowAverage, .Medium => some "The Offensive Minded"
  | .BelowAverage, .Average, .Fast => some "The Defensive Minded"
  | .BelowAverage, .Average, .Slow => some "The Defensive Minded"
  | .BelowAverage, .Average, .Medium => some "The Defensive Minded"
  | .BelowAverage, .BelowAverage, .Fast => some "The Underdog"
  | .BelowAverage, .BelowAverage, .Slow => some "The Underdog"
  | .BelowAverage, .BelowAverage, .Medium => some "The Underdog"
  | _, _, _ => none

/-- `ArchetypeEngine.get_tier` (lines 268-280) with the thresholds always
passed by `assign_archetype` (`elite 25, good 75, average 150, below_avg 250`);
`none` models a NaN rank (`pd.isna`). -/
def get_tier (rank : Option ℚ) : Tier :=
  match rank with
  | none => .Average
  | some r =>
      if r ≤ 25 then .Elite
      else if r ≤ 75 then .Good
      else if r ≤ 150 then .Average
      else if r ≤ 250 then .BelowAverage
      else .Weak

/-- `ArchetypeEngine.get_tempo` (lines 282-290). -/
def get_tempo (rank : Option ℚ) : Tempo :=
  match rank with
  | none => .Medium
  | some r =>
      if r ≤ 100 then .Fast
      else if r ≤ 250 then .Medium
      else .Slow

/-- Core of `ArchetypeEngine.assign_archetype` (lines 292-311): table lookup on
the tier triple, then the Weak-tier fallback branches, else `The Unknown`. -/
def assign_archetype_tiers (off_tier def_tier : Tier) (tempo : Tempo) : String :=
  match ARCHETYPE_MAP off_tier def_tier tempo with
  | some name => name
  | none =>
      if off_tier = .Weak ∨ def_tier = .Weak then
        if off_tier = .Weak ∧ def_tier = .Weak then "The Cinderella Hopeful"
        else if off_tier = .Weak then "The Defense-First"
        else "The Offense-Only"
      else "The Unknown"

/-- `ArchetypeEngine.assign_archetype` on raw ranks (NaN modelled as `none`). -/
def assign_archetype (oeRank deRank tempoRank : Option ℚ) : String :=
  assign_archetype_tiers (get_tier oeRank) (get_tier deRank) (get_tempo tempoRank)

/-- The fixed label set: every value `assign_archetype_tiers` can return other
than the unreachable `The Unknown`. -/
def ARCHETYPE_LABELS : List String :=
  ["The Juggernaut", "The Fortress", "The Powerhouse", "The Sharpshooter",
   "The Sniper", "The Gunslinger", "The Glass Cannon", "The Crusher",
   "The Wall", "The Lockdown", "The Grinder", "The Brick House",
   "The Balanced Threat", "The Fundamentals", "The All-Arounder",
   "The Run-and-Gun", "The Half-Court Hero", "The Scorer",
   "The Pressure Cooker", "The Suffocator", "The Defender",
   "The Scrappy Squad", "The Plodder", "The Mid-Pack",
   "The Offensive Minded", "The Defensive Minded", "The Underdog",
   "The Cinderella Hopeful", "The Defense-First", "The Offense-Only"]

end Unified

/-! ### Seed-implied win probability (both pipelines) -/

/-- Lookup in an association list of seed pairs, modelling Python
`dict.get(key)` on a literal dict with distinct keys. -/
def tableLookup (k : ℕ × ℕ) : List ((ℕ × ℕ) × ℚ) → Option ℚ
  | [] => none
  | e :: rest => if e.1 = k then some e.2 else tableLookup k rest

theorem tableLookup_diag (t : List ((ℕ × ℕ) × ℚ))
    (hlt : ∀ e ∈ t, e.1.1 < e.1.2) (s : ℕ) : tableLookup (s, s) t = none := by
  induction t with
  | nil => rfl
  | cons e rest ih =>
      have he := hlt e (List.mem_cons_self e rest)
      have hne : ¬ e.1 = (s, s) := by
        intro hc
        rw [hc] at he
        exact lt_irrefl s he
      simp only [tableLookup, if_neg hne]
      exact ih (fun x hx => hlt x (List.mem_cons_of_mem e hx))

namespace Unified

/-- `Config.SEED_WIN_RATES` (unified pipeline lines 109-116). -/
def SEED_WIN_RATES : List ((ℕ × ℕ) × ℚ) :=
  [((1, 16), 993/1000), ((2, 15), 943/1000), ((3, 14), 851/1000), ((4, 13), 793/1000),
   ((5, 12), 649/1000), ((6, 11), 627/1000), ((7, 10), 609/1000), ((8, 9), 519/1000),
   ((1, 8), 794/1000), ((1, 9), 862/1000), ((2, 7), 667/1000), ((2, 10), 714/1000),
   ((3, 6), 571/1000), ((3, 11), 657/1000), ((4, 5), 545/1000), ((4, 12), 667/1000),
   ((1, 4), 714/1000), ((1, 5), 800/1000), ((2, 3), 545/1000), ((2, 6), 667/1000),
   ((1, 2), 556/1000), ((1, 3), 650/1000)]

/-- `get_seed_prob` inside `build_matchup_features` (lines 625-631):
look up `(min s1 s2, max s1 s2)` with default `0.5`, invert unless `s1 <= s2`. -/
def get_seed_prob (s1 s2 : ℕ) : ℚ :=
  let key := (min s1 s2, max s1 s2)
  let base_prob := (tableLookup key SEED_WIN_RATES).getD (1/2)
  if s1 ≤ s2 then base_prob else 1 - base_prob

end Unified

namespace V2

/-- `seed_probs` inside `build_matchup_features` (v2 pipeline lines 222-229). -/
def seed_probs : List ((ℕ × ℕ) × ℚ) :=
  [((1, 16), 993/1000), ((2, 15), 938/1000), ((3, 14), 881/1000), ((4, 13), 810/1000),
   ((5, 12), 654/1000), ((6, 11), 548/1000), ((7, 10), 597/1000), ((8, 9), 500/1000),
   ((1, 8), 85/100), ((1, 9), 85/100), ((2, 7), 64/100), ((2, 10), 64/100),
   ((3, 6), 58/100), ((3, 11), 58/100), ((4, 5), 55/100), ((4, 12), 55/100),
   ((1, 4), 72/100), ((1, 5), 72/100), ((2, 3), 55/100), ((2, 6), 55/100),
   ((1, 2), 58/100), ((1, 3), 65/100)]

/-- `seed_implied` computation in `build_matchup_features` (lines 231-239):
lookup `(min, max)` with default `0.5`; keep if `s1 < s2`, invert if
`s1 > s2`, and return `0.5` on equal seeds. -/
def seed_implied_prob (s1 s2 : ℕ) : ℚ :=
  let key := (min s1 s2, max s1 s2)
  let base_prob := (tableLookup key seed_probs).getD (1/2)
  if s1 < s2 then base_prob
  else if s2 < s1 then 1 - base_prob
  else 1/2

end V2

theorem unified_seed_prob_diag (s : ℕ) : Unified.get_seed_prob s s = 1/2 := by
  unfold Unified.get_seed_prob
  have h := tableLookup_diag Unified.SEED_WIN_RATES (by decide) s
  simp [h]

theorem v2_seed_prob_diag (s : ℕ) : V2.seed_implied_prob s s = 1/2 := by
  unfold V2.seed_implied_prob
  have h := tableLookup_diag V2.seed_probs (by decide) s
  simp [h]

theorem unified_seed_prob_reverse (a b : ℕ) :
    Unified.get_seed_prob a b + Unified.get_seed_prob b a = 1 := by
  rcases lt_trichotomy a b with h | h | h
  · unfold Unified.get_seed_prob
    have h1 : min a b = min b a := min_comm a b
    have h2 : max a b = max b a := max_comm a b
    simp only [h1, h2, if_pos (le_of_lt h), if_neg (not_le.mpr h)]
    ring
  · subst h
    rw [unified_seed_prob_diag]
    norm_num
  · unfold Unified.get_seed_prob
    have h1 : min a b = min b a := min_comm a b
    have h2 : max a b = max b a := max_comm a b
    simp only [h1, h2, if_neg (not_le.mpr h), if_pos (le_of_lt h)]
    ring

theorem v2_seed_prob_reverse (a b : ℕ) :
    V2.seed_implied_prob a b + V2.seed_implied_prob b a = 1 := by
  rcases lt_trichotomy a b with h | h | h
  · unfold V2.seed_implied_prob
    have h1 : min a b = min b a := min_comm a b
    have h2 : max a b = max b a := max_comm a b
    simp only [h1, h2, if_pos h, if_neg (lt_asymm h), if_neg (lt_irrefl b)]
    ring
  · subst h
    rw [v2_seed_prob_diag]
    norm_num
  · unfold V2.seed_implied_prob
    have h1 : min a b = min b a := min_comm a b
    have h2 : max a b = max b a := max_comm a b
    simp only [h1, h2, if_pos h, if_neg (lt_asymm h), if_neg (lt_irrefl a)]
    ring

/-! ### Archetype matchup matrix (`ArchetypeEngine.build_matchup_matrix`, lines 326-341) -/

namespace Unified

/-- One training row as consumed by `build_matchup_matrix`:
the two archetype labels and whether T1 won. -/
structure MatchupRow where
  t1_arch : String
  t2_arch : String
  t1_won : Bool

/-- Point update of the `(wins, total)` counters at key `k`. -/
def matrixAdd (m : String × String → ℕ × ℕ) (k : String × String)
    (dw dt : ℕ) : String × String → ℕ × ℕ :=
  fun p => if p = k then ((m p).1 + dw, (m p).2 + dt) else m p

/-- Processing of one row (loop body of `build_matchup_matrix`):
`matrix[(a1,a2)]` gets `wins += won, total += 1` and
`matrix[(a2,a1)]` gets `wins += 1 - won, total += 1`. -/
def matrixStep (m : String × String → ℕ × ℕ) (r : MatchupRow) :
    String × String → ℕ × ℕ :=
  let w : ℕ := if r.t1_won then 1 else 0
  matrixAdd (matrixAdd m (r.t1_arch, r.t2_arch) w 1) (r.t2_arch, r.t1_arch) (1 - w) 1

/-- `ArchetypeEngine.build_matchup_matrix`: fold the loop body over the rows,
starting from the all-zero `defaultdict`. -/
def build_matchup_matrix (rows : List MatchupRow) : String × String → ℕ × ℕ :=
  rows.foldl matrixStep (fun _ => (0, 0))

/-- The `win_rate` field computed at the end of `build_matchup_matrix`:
`wins / total` when `total > 0`, else `0.5`. -/
def matchup_win_rate (rows : List MatchupRow) (p : String × String) : ℚ :=
  let v := build_matchup_matrix rows p
  if 0 < v.2 then (v.1 : ℚ) / (v.2 : ℚ) else 1/2

/-- Per-row contribution to the `wins` counter at key `p`:
the first `matrixAdd` adds `won` at `(a1, a2)`, the second adds `1 - won`
at `(a2, a1)`. -/
def rowContribWins (r : MatchupRow) (p : String × String) : ℕ :=
  (if p = (r.t1_arch, r.t2_arch) then (if r.t1_won then 1 else 0) else 0) +
  (if p = (r.t2_arch, r.t1_arch) then 1 - (if r.t1_won then 1 else 0) else 0)

/-- Per-row contribution to the `total` counter at key `p`. -/
def rowContribTotal (r : MatchupRow) (p : String × String) : ℕ :=
  (if p = (r.t1_arch, r.t2_arch) then 1 else 0) +
  (if p = (r.t2_arch, r.t1_arch) then 1 else 0)

theorem matrixAdd_apply (m : String × String → ℕ × ℕ) (k : String × String)
    (dw dt : ℕ) (p : String × String) :
    matrixAdd m k dw dt p =
      ((m p).1 + (if p = k then dw else 0), (m p).2 + (if p = k then dt else 0)) := by
  unfold matrixAdd
  by_cases h : p = k <;> simp [h]

theorem matrixStep_apply (m : String × String → ℕ × ℕ) (r : MatchupRow)
    (p : String × String) :
    matrixStep m r p =
      ((m p).1 + rowContribWins r p, (m p).2 + rowContribTotal r p) := by
  unfold matrixStep
  rw [matrixAdd_apply, matrixAdd_apply]
  unfold rowContribWins rowContribTotal
  simp only [Prod.mk.injEq]
  exact ⟨by omega, by omega⟩

theorem foldl_matrixStep_apply (rows : List MatchupRow)
    (m : String × String → ℕ × ℕ) (p : String × String) :
    (rows.foldl matrixStep m) p =
      ((m p).1 + (rows.map (fun r => rowContribWins r p)).sum,
       (m p).2 + (rows.map (fun r => rowContribTotal r p)).sum) := by
  induction rows generalizing m with
  | nil => simp
  | cons r rest ih =>
      simp only [List.foldl_cons, List.map_cons, List.sum_cons]
      rw [ih (matrixStep m r), matrixStep_apply]
      dsimp only
      simp only [Prod.mk.injEq]
      exact ⟨by omega, by omega⟩

theorem build_matchup_matrix_apply (rows : List MatchupRow) (p : String × String) :
    build_matchup_matrix rows p =
      ((rows.map (fun r => rowContribWins r p)).sum,
       (rows.map (fun r => rowContribTotal r p)).sum) := by
  unfold build_matchup_matrix
  rw [foldl_matrixStep_apply]
  simp

theorem pair_eq_swap (A B a b : String) : ((A, B) = (a, b)) ↔ ((B, A) = (b, a)) := by
  constructor <;> intro h <;>
    · rw [Prod.ext_iff] at h ⊢
      exact ⟨h.2, h.1⟩

theorem rowContribTotal_swap (r : MatchupRow) (A B : String) :
    rowContribTotal r (A, B) = rowContribTotal r (B, A) := by
  unfold rowContribTotal
  have g1 : ((B, A) = (r.t1_arch, r.t2_arch)) = ((A, B) = (r.t2_arch, r.t1_arch)) :=
    propext (pair_eq_swap B A r.t1_arch r.t2_arch)
  have g2 : ((B, A) = (r.t2_arch, r.t1_arch)) = ((A, B) = (r.t1_arch, r.t2_arch)) :=
    propext (pair_eq_swap B A r.t2_arch r.t1_arch)
  simp only [g1, g2]
  omega

theorem rowContribWins_total (r : MatchupRow) (A B : String) :
    rowContribWins r (A, B) + rowContribWins r (B, A) = rowContribTotal r (A, B) := by
  unfold rowContribWins rowContribTotal
  have g1 : ((B, A) = (r.t1_arch, r.t2_arch)) = ((A, B) = (r.t2_arch, r.t1_arch)) :=
    propext (pair_eq_swap B A r.t1_arch r.t2_arch)
  have g2 : ((B, A) = (r.t2_arch, r.t1_arch)) = ((A, B) = (r.t1_arch, r.t2_arch)) :=
    propext (pair_eq_swap B A r.t2_arch r.t1_arch)
  simp only [g1, g2]
  split_ifs <;> omega

theorem build_total_symm (rows : List MatchupRow) (A B : String) :
    (build_matchup_matrix rows (A, B)).2 = (build_matchup_matrix rows (B, A)).2 := by
  rw [build_matchup_matrix_apply, build_matchup_matrix_apply]
  simp only
  induction rows with
  | nil => simp
  | cons r rest ih =>
      simp only [List.map_cons, List.sum_cons, ih, rowContribTotal_swap r A B]

theorem build_wins_complement (rows : List MatchupRow) (A B : String) :
    (build_matchup_matrix rows (A, B)).1 + (build_matchup_matrix rows (B, A)).1 =
      (build_matchup_matrix rows (A, B)).2 := by
  rw [build_matchup_matrix_apply, build_matchup_matrix_apply]
  simp only
  induction rows with
  | nil => simp
  | cons r rest ih =>
      simp only [List.map_cons, List.sum_cons]
      have := rowContribWins_total r A B
      omega

theorem matchup_win_rate_sum (rows : List MatchupRow) (A B : String) :
    matchup_win_rate rows (A, B) + matchup_win_rate rows (B, A) = 1 := by
  unfold matchup_win_rate
  have ht := build_total_symm rows A B
  have hw := build_wins_complement rows A B
  by_cases hpos : 0 < (build_matchup_matrix rows (A, B)).2
  · rw [if_pos hpos, if_pos (ht ▸ hpos)]
    have hne : ((build_matchup_matrix rows (A, B)).2 : ℚ) ≠ 0 := by
      exact_mod_cast Nat.pos_iff_ne_zero.mp hpos
    rw [← ht]
    rw [div_add_div_same]
    rw [div_eq_one_iff_eq hne]
    exact_mod_cast hw
  · rw [if_neg hpos, if_neg (by rw [← ht]; exact hpos)]
    norm_num

theorem matchup_win_rate_diag (rows : List MatchupRow) (A : String)
    (h : 0 < (build_matchup_matrix rows (A, A)).2) :
    matchup_win_rate rows (A, A) = 1/2 := by
  have := matchup_win_rate_sum rows A A
  linarith

end Unified

/-! ### Injury/context adjustment layer (unified pipeline Step 2, lines 1167-1331) -/

namespace Unified

/-- One row of the team injury summary produced by `build_team_summary`
(lines 1127-1164): exactly the fields read by `compute_injury_adj`,
`build_injury_ctx` and the profile patcher. -/
structure TeamSummaryRow where
  team : String
  star_player : String
  star_player_bpm : ℚ
  star_player_usg : ℚ
  star_player_ppg : ℚ
  star_dependency_pct : ℚ
  top2_dependency_pct : ℚ
  team_total_bpm : ℚ
  star_is_injured : Bool
  n_injured : ℕ
  n_out : ℕ
  team_total_injury_bpm : ℚ
  upset_vulnerability : ℚ
deriving DecidableEq

/-- `compute_injury_adj` (lines 1167-1180).  `none` models the `row is None`
case.  `team_total_bpm or 1` replaces a zero total by `1`. -/
def compute_injury_adj (row : Option TeamSummaryRow) : ℚ :=
  match row with
  | none => 0
  | some r =>
      let adj0 : ℚ := 0
      let adj1 :=
        if r.star_is_injured then
          let dep := r.star_dependency_pct / 100
          let bpm := r.star_player_bpm
          let bpm_factor := min (bpm / 4) 1
          let scale : ℚ := if 1/2 ≤ dep then 12/100 else 7/100
          adj0 - scale * bpm_factor * dep
        else adj0
      let total_inj := r.team_total_injury_bpm
      let total_bpm := if r.team_total_bpm = 0 then 1 else r.team_total_bpm
      let adj2 := adj1 - 8/100 * min (total_inj / total_bpm) (1/2)
      roundDp 4 (npClip adj2 (-(15/100)) 0)

/-- `get_confidence` (lines 1183-1189), the Step-2 confidence tiers. -/
def get_confidence (prob : ℚ) : String :=
  let p := max prob (1 - prob)
  if 85/100 ≤ p then "lock"
  else if 72/100 ≤ p then "strong"
  else if 60/100 ≤ p then "lean"
  else if 52/100 ≤ p then "toss-up"
  else "coin-flip"

/-- `get_confidence_tier` (lines 754-760), the Step-1 confidence tiers. -/
def get_confidence_tier (prob : ℚ) : String :=
  let p := max prob (1 - prob)
  if 85/100 ≤ p then "LOCK"
  else if 72/100 ≤ p then "STRONG"
  else if 60/100 ≤ p then "LEAN"
  else if 52/100 ≤ p then "TOSS-UP"
  else "COIN FLIP"

/-- The injury context record built by `build_injury_ctx` (lines 1216-1233);
only the fields that feed back into later computation are kept (the rest are
strings copied verbatim into the output record). -/
structure InjuryCtx where
  has_injuries : Bool
  star_is_injured : Bool
  n_injured : ℕ
deriving DecidableEq

/-- `build_injury_ctx` (lines 1216-1233). -/
def build_injury_ctx (row : Option TeamSummaryRow) : InjuryCtx :=
  match row with
  | none => { has_injuries := false, star_is_injured := false, n_injured := 0 }
  | some r =>
      { has_injuries := decide (0 < r.n_injured)
        star_is_injured := r.star_is_injured
        n_injured := r.n_injured }

/-- The branch taken by `compute_upset_flag_v2` (lines 1192-1206); the
formatted message text (team and player names interpolated into the string)
is abstracted to the branch tag. -/
inductive UpsetFlagV2
  | injuryUpset
  | injuryRisk
  | upsetAlert
  | upsetWatch
  | sleeper
  | chalk
deriving DecidableEq

/-- `compute_upset_flag_v2` (lines 1192-1206). -/
def compute_upset_flag_v2 (s1 s2 : ℤ) (prob : ℚ) (t1_ctx t2_ctx : InjuryCtx) :
    UpsetFlagV2 :=
  let gap := (s1 - s2).natAbs
  let fav_prob := if s1 ≤ s2 then prob else 1 - prob
  if t2_ctx.star_is_injured ∧ 3 ≤ gap then .injuryUpset
  else if t1_ctx.star_is_injured ∧ 3 ≤ gap then .injuryRisk
  else if fav_prob < 1/2 then .upsetAlert
  else if fav_prob < 60/100 ∧ 3 ≤ gap then .upsetWatch
  else if 4 ≤ gap ∧ fav_prob < 72/100 then .sleeper
  else .chalk

/-- The fields of one prediction record that the Step-2 patch loop
(lines 1286-1320) writes. -/
structure PatchedFields where
  model_win_prob_original : ℚ
  model_win_prob : ℚ
  injury_adjusted : Bool
  t1_injury_adj : ℚ
  t2_injury_adj : ℚ
  upset_flag : UpsetFlagV2
  confidence : String
  pick_flipped_by_injury : Bool
deriving DecidableEq

/-- The body of the Step-2 per-prediction patch loop (lines 1286-1315):
compute the two per-team adjustments, clip the patched probability into
`[0.02, 0.98]`, round to 5 decimals, and recompute confidence and upset
classification from the adjusted probability. -/
def patch_prediction (base : ℚ) (s1 s2 : ℤ) (r1 r2 : Option TeamSummaryRow) :
    PatchedFields :=
  let t1_adj := compute_injury_adj r1
  let t2_adj := compute_injury_adj r2
  let adj := roundDp 5 (npClip (base + t1_adj - t2_adj) (2/100) (98/100))
  let t1_ctx := build_injury_ctx r1
  let t2_ctx := build_injury_ctx r2
  { model_win_prob_original := base
    model_win_prob := adj
    injury_adjusted := decide (t1_adj ≠ 0 ∨ t2_adj ≠ 0)
    t1_injury_adj := t1_adj
    t2_injury_adj := t2_adj
    upset_flag := compute_upset_flag_v2 s1 s2 adj t1_ctx t2_ctx
    confidence := get_confidence adj
    pick_flipped_by_injury := decide ((1/2 < adj) ≠ (1/2 < base)) }

theorem roundDp4_clip_nonpos (x : ℚ) : roundDp 4 (npClip x (-(15/100)) 0) ≤ 0 := by
  have h0 : npClip x (-(15/100)) 0 ≤ ((0 : ℤ) : ℚ) / 10 ^ 4 := by
    have := npClip_le x (-(15/100)) 0
    simpa using this
  have := roundDp_le 4 0 _ h0
  simpa using this

theorem roundDp4_clip_cap (x : ℚ) : -(15/100) ≤ roundDp 4 (npClip x (-(15/100)) 0) := by
  have h0 : ((-1500 : ℤ) : ℚ) / 10 ^ 4 ≤ npClip x (-(15/100)) 0 := by
    have h := le_npClip x (-(15/100)) 0 (by norm_num)
    calc ((-1500 : ℤ) : ℚ) / 10 ^ 4 = -(15/100) := by norm_num
      _ ≤ _ := h
  have := le_roundDp 4 (-1500) _ h0
  calc (-(15/100) : ℚ) = ((-1500 : ℤ) : ℚ) / 10 ^ 4 := by norm_num
    _ ≤ _ := this

theorem compute_injury_adj_nonpos (row : Option TeamSummaryRow) :
    compute_injury_adj row ≤ 0 := by
  cases row with
  | none => norm_num [compute_injury_adj]
  | some r => exact roundDp4_clip_nonpos _

theorem neg_cap_le_compute_injury_adj (row : Option TeamSummaryRow) :
    -(15/100) ≤ compute_injury_adj row := by
  cases row with
  | none => norm_num [compute_injury_adj]
  | some r => exact roundDp4_clip_cap _

end Unified

theorem roundDp5_clip_prob_lb (x : ℚ) :
    2/100 ≤ roundDp 5 (npClip x (2/100) (98/100)) := by
  have h0 : ((2000 : ℤ) : ℚ) / 10 ^ 5 ≤ npClip x (2/100) (98/100) := by
    have h := le_npClip x (2/100) (98/100) (by norm_num)
    calc ((2000 : ℤ) : ℚ) / 10 ^ 5 = 2/100 := by norm_num
      _ ≤ _ := h
  have := le_roundDp 5 2000 _ h0
  calc (2/100 : ℚ) = ((2000 : ℤ) : ℚ) / 10 ^ 5 := by norm_num
    _ ≤ _ := this

theorem roundDp5_clip_prob_ub (x : ℚ) :
    roundDp 5 (npClip x (2/100) (98/100)) ≤ 98/100 := by
  have h0 : npClip x (2/100) (98/100) ≤ ((98000 : ℤ) : ℚ) / 10 ^ 5 := by
    have h := npClip_le x (2/100) (98/100)
    calc npClip x (2/100) (98/100) ≤ 98/100 := h
      _ = ((98000 : ℤ) : ℚ) / 10 ^ 5 := by norm_num
  have := roundDp_le 5 98000 _ h0
  calc roundDp 5 (npClip x (2/100) (98/100)) ≤ ((98000 : ℤ) : ℚ) / 10 ^ 5 := this
    _ = 98/100 := by norm_num

/-! ### Game records and the float-with-NaN model -/

/-- Location flag `WLoc` of a game row. -/
inductive Loc
  | H
  | A
  | N
deriving DecidableEq

/-- One row of the regular-season (or tournament) detailed results table:
season, day number, winner/loser ids, scores and the box-score counts used
by the aggregators. -/
structure Game where
  season : ℕ
  dayNum : ℕ
  wTeamID : ℕ
  lTeamID : ℕ
  wScore : ℕ
  lScore : ℕ
  wLoc : Loc
  wFGM : ℕ
  wFGA : ℕ
  wFGM3 : ℕ
  wFGA3 : ℕ
  wFTM : ℕ
  wFTA : ℕ
  wOR : ℕ
  wDR : ℕ
  wAst : ℕ
  wTO : ℕ
  wStl : ℕ
  wBlk : ℕ
  lFGM : ℕ
  lFGA : ℕ
  lFGM3 : ℕ
  lFGA3 : ℕ
  lFTM : ℕ
  lFTA : ℕ
  lOR : ℕ
  lDR : ℕ
  lAst : ℕ
  lTO : ℕ
  lStl : ℕ
  lBlk : ℕ
deriving DecidableEq

/-- A float value: `none` models IEEE NaN (as produced by a pandas mean over
an all-NaN group and propagated through arithmetic). -/
def Fl : Type := Option ℚ

instance : DecidableEq Fl := by unfold Fl; infer_instance

/-- NaN-propagating addition. -/
def fadd (a b : Fl) : Fl := a.bind (fun x => b.map (fun y => x + y))

/-- NaN-propagating subtraction. -/
def fsub (a b : Fl) : Fl := a.bind (fun x => b.map (fun y => x - y))

/-- NaN-propagating multiplication. -/
def fmul (a b : Fl) : Fl := a.bind (fun x => b.map (fun y => x * y))

/-- NaN/Inf-producing division: division by zero and operations on NaN both
yield a non-finite result. -/
def fdiv (a b : Fl) : Fl :=
  a.bind (fun x => b.bind (fun y => if y = 0 then none else some (x / y)))

/-- NaN-propagating natural power (`x ** 8`). -/
def fpow (a : Fl) (n : ℕ) : Fl := a.map (fun x => x ^ n)

/-- Elementwise `x > c` as numpy evaluates it: any comparison with NaN is
`False`. -/
def fgt (a : Fl) (c : ℚ) : Bool :=
  match a with
  | none => false
  | some x => decide (c < x)

/-- `np.where(cond, a, b)` for one element (both branches are computed,
the condition selects). -/
def fwhere (c : Bool) (a b : Fl) : Fl := if c then a else b

/-- Mean of a list of exact values; the empty mean is NaN
(a pandas group mean over no observations). -/
def fmean (xs : List ℚ) : Fl :=
  if xs.isEmpty then none else some (xs.sum / xs.length)

namespace Unified

/-- The aggregated per-(season, team) statistics produced by
`compute_season_stats` (lines 422-505) that later consumers read. -/
structure SeasonStats where
  wins : Fl
  losses : Fl
  win_pct : Fl
  ppg : Fl
  opp_ppg : Fl
  point_diff : Fl
  pyth : Fl
  possessions : Fl
  off_eff : Fl
  def_eff : Fl
  net_eff : Fl
  efg_pct : Fl
  to_rate : Fl
  ft_rate : Fl
  oreb_pct : Fl
  three_rate : Fl
  tempo : Fl

/-- `compute_season_stats` for one `(season, team)` group.  The two `groupby`
loops produce one record of `W_*` means over the games the team won and one
record of `L_*` means over the games it lost; the final
`groupby` mean aggregation leaves a `W_*` (resp. `L_*`) column NaN when the
team has no wins (resp. no losses), and every later `np.where` evaluates its
condition as `False` on NaN.  Lines 425-505 of the source. -/
def compute_season_stats (regular : List Game) (season team : ℕ) : SeasonStats :=
  let wgrp := regular.filter (fun g => g.season = season ∧ g.wTeamID = team)
  let lgrp := regular.filter (fun g => g.season = season ∧ g.lTeamID = team)
  let w_games : Fl := if wgrp.isEmpty then none else some wgrp.length
  let l_games : Fl := if lgrp.isEmpty then none else some lgrp.length
  let w_score := fmean (wgrp.map (fun g => (g.wScore : ℚ)))
  let opp_score := fmean (wgrp.map (fun g => (g.lScore : ℚ)))
  let w_fga := fmean (wgrp.map (fun g => (g.wFGA : ℚ)))
  let w_fgm := fmean (wgrp.map (fun g => (g.wFGM : ℚ)))
  let w_fga3 := fmean (wgrp.map (fun g => (g.wFGA3 : ℚ)))
  let w_fta := fmean (wgrp.map (fun g => (g.wFTA : ℚ)))
  let w_to := fmean (wgrp.map (fun g => (g.wTO : ℚ)))
  let w_or := fmean (wgrp.map (fun g => (g.wOR : ℚ)))
  let w_dr := fmean (wgrp.map (fun g => (g.wDR : ℚ)))
  let w_fgm3 := fmean (wgrp.map (fun g => (g.wFGM3 : ℚ)))
  let wins := w_games
  let losses := l_games
  let total_games := fadd wins losses
  let win_pct := fwhere (fgt total_games 0) (fdiv wins total_games) (some (1/2))
  let ppg := w_score
  let opp_ppg := opp_score
  let point_diff := fsub ppg opp_ppg
  let pyth := fwhere (fgt (fadd ppg opp_ppg) 0)
    (fdiv (fpow ppg 8) (fadd (fpow ppg 8) (fpow opp_ppg 8))) (some (1/2))
  let possessions := fadd (fsub w_fga w_or) (fadd w_to (fmul (some (475/1000)) w_fta))
  let off_eff := fwhere (fgt possessions 0) (fmul (fdiv ppg possessions) (some 100)) (some 100)
  let def_eff := fwhere (fgt possessions 0) (fmul (fdiv opp_ppg possessions) (some 100)) (some 100)
  let net_eff := fsub off_eff def_eff
  let efg_pct := fwhere (fgt w_fga 0)
    (fdiv (fadd w_fgm (fmul (some (1/2)) w_fgm3)) w_fga) (some (45/100))
  let to_rate := fwhere (fgt possessions 0) (fdiv w_to possessions) (some (15/100))
  let ft_rate := fwhere (fgt w_fga 0) (fdiv w_fta w_fga) (some (30/100))
  let oreb_pct := fwhere (fgt (fadd w_or w_dr) 0) (fdiv w_or (fadd w_or w_dr)) (some (30/100))
  let three_rate := fwhere (fgt w_fga 0) (fdiv w_fga3 w_fga) (some (30/100))
  { wins := wins
    losses := losses
    win_pct := win_pct
    ppg := ppg
    opp_ppg := opp_ppg
    point_diff := point_diff
    pyth := pyth
    possessions := possessions
    off_eff := off_eff
    def_eff := def_eff
    net_eff := net_eff
    efg_pct := efg_pct
    to_rate := to_rate
    ft_rate := ft_rate
    oreb_pct := oreb_pct
    three_rate := three_rate
    tempo := possessions }

end Unified

/-- Guarded rational division: `none` models the non-finite float produced by
a zero denominator. -/
def fdivQ (a b : ℚ) : Fl := if b = 0 then none else some (a / b)

namespace V2

/-- Pythagorean win expectation of `build_season_features` (lines 131-133):
`avg_score ** 10.25 / max(avg_score ** 10.25 + avg_allowed ** 10.25, 0.001)`.
A negative base under the fractional exponent does not produce a real float
in Python, hence `none`. -/
noncomputable def v2_pyth (avgS avgA : Fl) : Option ℝ :=
  match avgS, avgA with
  | some s, some a =>
      if s < 0 ∨ a < 0 then none
      else
        let n : ℝ := (s : ℝ) ^ (10.25 : ℝ)
        let d : ℝ := max (n + (a : ℝ) ^ (10.25 : ℝ)) (1/1000)
        if d = 0 then none else some (n / d)
  | _, _ => none

/-- The per-team season features computed by `build_season_features`
(v2 pipeline lines 51-174). -/
structure TeamFeatures where
  n_games : ℕ
  n_wins : ℕ
  win_frac : Fl
  avg_score : Fl
  avg_allowed : Fl
  avg_margin : Fl
  fg_pct : Fl
  fg3_pct : Fl
  ft_pct : Fl
  efg : Fl
  opp_efg : Fl
  to_rate : Fl
  or_pct : Fl
  dr_pct : Fl
  ast_rate : Fl
  ft_rate : Fl
  three_rate : Fl
  blk_stl : Fl
  off_eff : Fl
  def_eff : Fl
  net_eff : Fl
  pyth : Option ℝ
  recent_wr : Fl

/-- `build_season_features` for one team id (the loop body, lines 60-172).
Sums are over the games of that season the team won resp. lost; every ratio
denominator is wrapped in `max(·, 1)` (and `max(·, 0.001)` for `pyth`).
The field `win_frac` is named win ratio in the source. -/
noncomputable def build_season_features (reg : List Game) (season tid : ℕ) :
    TeamFeatures :=
  let rs := reg.filter (fun g => g.season = season)
  let wins := rs.filter (fun g => g.wTeamID = tid)
  let losses := rs.filter (fun g => g.lTeamID = tid)
  let n_wins := wins.length
  let n_losses := losses.length
  let n_games := n_wins + n_losses
  let pts_for : ℚ := ((wins.map (fun g => g.wScore)).sum + (losses.map (fun g => g.lScore)).sum : ℕ)
  let pts_against : ℚ := ((wins.map (fun g => g.lScore)).sum + (losses.map (fun g => g.wScore)).sum : ℕ)
  let avg_score := fdivQ pts_for n_games
  let avg_allowed := fdivQ pts_against n_games
  let avg_margin := fdivQ (pts_for - pts_against) n_games
  let tot_fgm : ℚ := ((wins.map (fun g => g.wFGM)).sum + (losses.map (fun g => g.lFGM)).sum : ℕ)
  let tot_fga : ℚ := ((wins.map (fun g => g.wFGA)).sum + (losses.map (fun g => g.lFGA)).sum : ℕ)
  let tot_fgm3 : ℚ := ((wins.map (fun g => g.wFGM3)).sum + (losses.map (fun g => g.lFGM3)).sum : ℕ)
  let tot_fga3 : ℚ := ((wins.map (fun g => g.wFGA3)).sum + (losses.map (fun g => g.lFGA3)).sum : ℕ)
  let tot_ftm : ℚ := ((wins.map (fun g => g.wFTM)).sum + (losses.map (fun g => g.lFTM)).sum : ℕ)
  let tot_fta : ℚ := ((wins.map (fun g => g.wFTA)).sum + (losses.map (fun g => g.lFTA)).sum : ℕ)
  let tot_or : ℚ := ((wins.map (fun g => g.wOR)).sum + (losses.map (fun g => g.lOR)).sum : ℕ)
  let tot_dr : ℚ := ((wins.map (fun g => g.wDR)).sum + (losses.map (fun g => g.lDR)).sum : ℕ)
  let tot_ast : ℚ := ((wins.map (fun g => g.wAst)).sum + (losses.map (fun g => g.lAst)).sum : ℕ)
  let tot_to : ℚ := ((wins.map (fun g => g.wTO)).sum + (losses.map (fun g => g.lTO)).sum : ℕ)
  let tot_stl : ℚ := ((wins.map (fun g => g.wStl)).sum + (losses.map (fun g => g.lStl)).sum : ℕ)
  let tot_blk : ℚ := ((wins.map (fun g => g.wBlk)).sum + (losses.map (fun g => g.lBlk)).sum : ℕ)
  let opp_fgm : ℚ := ((wins.map (fun g => g.lFGM)).sum + (losses.map (fun g => g.wFGM)).sum : ℕ)
  let opp_fga : ℚ := ((wins.map (fun g => g.lFGA)).sum + (losses.map (fun g => g.wFGA)).sum : ℕ)
  let opp_fgm3 : ℚ := ((wins.map (fun g => g.lFGM3)).sum + (losses.map (fun g => g.wFGM3)).sum : ℕ)
  let opp_fta : ℚ := ((wins.map (fun g => g.lFTA)).sum + (losses.map (fun g => g.wFTA)).sum : ℕ)
  let opp_or : ℚ := ((wins.map (fun g => g.lOR)).sum + (losses.map (fun g => g.wOR)).sum : ℕ)
  let opp_to : ℚ := ((wins.map (fun g => g.lTO)).sum + (losses.map (fun g => g.wTO)).sum : ℕ)
  let opp_dr : ℚ := ((wins.map (fun g => g.lDR)).sum + (losses.map (fun g => g.wDR)).sum : ℕ)
  let poss : ℚ := tot_fga - tot_or + tot_to + 44/100 * tot_fta
  let opp_poss : ℚ := opp_fga - opp_or + opp_to + 44/100 * opp_fta
  let fg_pct := fdivQ tot_fgm (max tot_fga 1)
  let fg3_pct := fdivQ tot_fgm3 (max tot_fga3 1)
  let ft_pct := fdivQ tot_ftm (max tot_fta 1)
  let efg := fdivQ (tot_fgm + 1/2 * tot_fgm3) (max tot_fga 1)
  let opp_efg := fdivQ (opp_fgm + 1/2 * opp_fgm3) (max opp_fga 1)
  let to_rate := fdivQ tot_to (max poss 1)
  let or_pct := fdivQ tot_or (max (tot_or + opp_dr) 1)
  let dr_pct := fdivQ tot_dr (max (tot_dr + opp_or) 1)
  let ast_rate := fdivQ tot_ast (max tot_fgm 1)
  let ft_rate := fdivQ tot_fta (max tot_fga 1)
  let three_rate := fdivQ tot_fga3 (max tot_fga 1)
  let blk_stl := fdivQ (tot_blk + tot_stl) n_games
  let off_eff := fmul (fdivQ pts_for (max poss 1)) (some 100)
  let def_eff := fmul (fdivQ pts_against (max opp_poss 1)) (some 100)
  let net_eff := fsub off_eff def_eff
  let pyth := v2_pyth avg_score avg_allowed
  let win_frac := fdivQ (n_wins : ℚ) (max (n_games : ℚ) 1)
  let recent_wr :=
    if rs.isEmpty then some (1/2)
    else
      let max_day := (rs.map (fun g => g.dayNum)).foldl max 0
      let recent_w := wins.filter (fun g => max_day - 14 ≤ g.dayNum)
      let recent_l := losses.filter (fun g => max_day - 14 ≤ g.dayNum)
      let recent_games := recent_w.length + recent_l.length
      fdivQ (recent_w.length : ℚ) (max (recent_games : ℚ) 1)
  { n_games := n_games
    n_wins := n_wins
    win_frac := win_frac
    avg_score := avg_score
    avg_allowed := avg_allowed
    avg_margin := avg_margin
    fg_pct := fg_pct
    fg3_pct := fg3_pct
    ft_pct := ft_pct
    efg := efg
    opp_efg := opp_efg
    to_rate := to_rate
    or_pct := or_pct
    dr_pct := dr_pct
    ast_rate := ast_rate
    ft_rate := ft_rate
    three_rate := three_rate
    blk_stl := blk_stl
    off_eff := off_eff
    def_eff := def_eff
    net_eff := net_eff
    pyth := pyth
    recent_wr := recent_wr }

end V2

theorem fdivQ_isSome_iff (a b : ℚ) : (fdivQ a b).isSome ↔ b ≠ 0 := by
  unfold fdivQ
  by_cases h : b = 0 <;> simp [h]

theorem fmul_isSome_iff (a b : Fl) : (fmul a b).isSome ↔ a.isSome ∧ b.isSome := by
  unfold fmul
  cases a <;> cases b <;> simp [Option.bind, Option.map]

theorem fsub_isSome_iff (a b : Fl) : (fsub a b).isSome ↔ a.isSome ∧ b.isSome := by
  unfold fsub
  cases a <;> cases b <;> simp [Option.bind, Option.map]

theorem max_one_ne_zero (x : ℚ) : max x 1 ≠ 0 := by
  intro hc
  have h1 : (1 : ℚ) ≤ max x 1 := le_max_right x 1
  rw [hc] at h1
  linarith

namespace V2

theorem v2_pyth_isSome (s a : ℚ) (hs : 0 ≤ s) (ha : 0 ≤ a) :
    (v2_pyth (some s) (some a)).isSome := by
  unfold v2_pyth
  dsimp only
  rw [if_neg (by push_neg; exact ⟨hs, ha⟩)]
  have hd : max (((s : ℝ)) ^ (10.25 : ℝ) + ((a : ℝ)) ^ (10.25 : ℝ)) (1/1000) ≠ 0 := by
    intro hc
    have h1 : (1/1000 : ℝ) ≤ max (((s : ℝ)) ^ (10.25 : ℝ) + ((a : ℝ)) ^ (10.25 : ℝ)) (1/1000) :=
      le_max_right _ _
    rw [hc] at h1
    linarith
  rw [if_neg hd]
  rfl

/-- Supporting fact for the degenerate-team safety claim: in the v2
aggregator every statistic of a team that played at least one game in the
season is a finite number, because every ratio denominator is floored
(`max(d, 1)`, `max(d, 0.001)` for `pyth`) — in particular for undefeated or
winless teams. -/
theorem v2_season_features_all_finite (reg : List Game) (season tid : ℕ)
    (h : 0 < (build_season_features reg season tid).n_games) :
    let f := build_season_features reg season tid
    f.win_frac.isSome ∧ f.avg_score.isSome ∧ f.avg_allowed.isSome ∧
    f.avg_margin.isSome ∧ f.fg_pct.isSome ∧ f.fg3_pct.isSome ∧
    f.ft_pct.isSome ∧ f.efg.isSome ∧ f.opp_efg.isSome ∧ f.to_rate.isSome ∧
    f.or_pct.isSome ∧ f.dr_pct.isSome ∧ f.ast_rate.isSome ∧
    f.ft_rate.isSome ∧ f.three_rate.isSome ∧ f.blk_stl.isSome ∧
    f.off_eff.isSome ∧ f.def_eff.isSome ∧ f.net_eff.isSome ∧
    f.pyth.isSome ∧ f.recent_wr.isSome := by
  unfold build_season_features at h ⊢
  simp only at h ⊢
  set wins := (reg.filter (fun g => g.season = season)).filter (fun g => g.wTeamID = tid) with hwins
  set losses := (reg.filter (fun g => g.season = season)).filter (fun g => g.lTeamID = tid) with hlosses
  have hn : ((wins.length + losses.length : ℕ) : ℚ) ≠ 0 := by
    have : 0 < wins.length + losses.length := h
    exact_mod_cast Nat.pos_iff_ne_zero.mp this
  have hpyth : (v2_pyth
      (fdivQ (((wins.map (fun g => g.wScore)).sum + (losses.map (fun g => g.lScore)).sum : ℕ) : ℚ)
        ((wins.length + losses.length : ℕ) : ℚ))
      (fdivQ (((wins.map (fun g => g.lScore)).sum + (losses.map (fun g => g.wScore)).sum : ℕ) : ℚ)
        ((wins.length + losses.length : ℕ) : ℚ))).isSome := by
    rw [show fdivQ (((wins.map (fun g => g.wScore)).sum + (losses.map (fun g => g.lScore)).sum : ℕ) : ℚ)
        ((wins.length + losses.length : ℕ) : ℚ) =
        some ((((wins.map (fun g => g.wScore)).sum + (losses.map (fun g => g.lScore)).sum : ℕ) : ℚ) /
          ((wins.length + losses.length : ℕ) : ℚ)) from by unfold fdivQ; rw [if_neg hn]]
    rw [show fdivQ (((wins.map (fun g => g.lScore)).sum + (losses.map (fun g => g.wScore)).sum : ℕ) : ℚ)
        ((wins.length + losses.length : ℕ) : ℚ) =
        some ((((wins.map (fun g => g.lScore)).sum + (losses.map (fun g => g.wScore)).sum : ℕ) : ℚ) /
          ((wins.length + losses.length : ℕ) : ℚ)) from by unfold fdivQ; rw [if_neg hn]]
    exact v2_pyth_isSome _ _
      (div_nonneg (by positivity) (by positivity))
      (div_nonneg (by positivity) (by positivity))
  refine ⟨?_, ?_, ?_, ?_, ?_, ?_, ?_, ?_, ?_, ?_, ?_, ?_, ?_, ?_, ?_, ?_, ?_, ?_, ?_, ?_, ?_⟩ <;>
    first
      | exact (fdivQ_isSome_iff _ _).mpr (max_one_ne_zero _)
      | exact (fdivQ_isSome_iff _ _).mpr hn
      | exact (fmul_isSome_iff _ _).mpr
          ⟨(fdivQ_isSome_iff _ _).mpr (max_one_ne_zero _), rfl⟩
      | exact (fsub_isSome_iff _ _).mpr
          ⟨(fmul_isSome_iff _ _).mpr ⟨(fdivQ_isSome_iff _ _).mpr (max_one_ne_zero _), rfl⟩,
           (fmul_isSome_iff _ _).mpr ⟨(fdivQ_isSome_iff _ _).mpr (max_one_ne_zero _), rfl⟩⟩
      | exact hpyth
      | (split
         · rfl
         · exact (fdivQ_isSome_iff _ _).mpr (max_one_ne_zero _))

end V2

/-! ### Elo rating engines (unified lines 391-419, v2 lines 180-208) -/

/-- The state of the Elo dict: the set of team ids present as keys, and the
rating function (meaningful on `known`). -/
structure EloState where
  known : Finset ℕ
  rating : ℕ → ℝ

/-- Insert a team at rating `base` if absent (`if w not in elo: elo[w] = base`;
also the `defaultdict` behaviour of the unified pipeline on first access). -/
def eloEnsure (base : ℝ) (st : EloState) (t : ℕ) : EloState :=
  if t ∈ st.known then st
  else { known := insert t st.known, rating := Function.update st.rating t base }

/-- `elo[w] += update; elo[l] -= update`, applied in that order. -/
def eloApplyUpdate (r : ℕ → ℝ) (w l : ℕ) (u : ℝ) : ℕ → ℝ :=
  let r1 := Function.update r w (r w + u)
  Function.update r1 l (r1 l - u)

theorem eloEnsure_known (base : ℝ) (st : EloState) (t : ℕ) :
    (eloEnsure base st t).known = insert t st.known := by
  unfold eloEnsure
  by_cases h : t ∈ st.known
  · rw [if_pos h, Finset.insert_eq_self.mpr h]
  · rw [if_neg h]

theorem eloEnsure_rating_of_mem (base : ℝ) (st : EloState) (t x : ℕ)
    (hx : x ∈ st.known) : (eloEnsure base st t).rating x = st.rating x := by
  unfold eloEnsure
  by_cases h : t ∈ st.known
  · rw [if_pos h]
  · rw [if_neg h]
    have : x ≠ t := fun hc => h (hc ▸ hx)
    exact Function.update_noteq this base st.rating

theorem eloEnsure_rating_self_of_not_mem (base : ℝ) (st : EloState) (t : ℕ)
    (ht : t ∉ st.known) : (eloEnsure base st t).rating t = base := by
  unfold eloEnsure
  rw [if_neg ht]
  exact Function.update_same t base st.rating

theorem eloApplyUpdate_apply (r : ℕ → ℝ) (w l : ℕ) (u : ℝ) (t : ℕ) :
    eloApplyUpdate r w l u t =
      r t + (if t = w then u else 0) - (if t = l then u else 0) := by
  unfold eloApplyUpdate
  simp only [Function.update_apply]
  split_ifs <;> first
    | (exfalso; omega)
    | (subst_vars; ring)

/-- The winner gain equals the loser loss for the raw dict update, including the
degenerate `w = l` case (where both are zero). -/
theorem eloApplyUpdate_gain_eq_neg_loss (r : ℕ → ℝ) (w l : ℕ) (u : ℝ) :
    eloApplyUpdate r w l u w - r w = -(eloApplyUpdate r w l u l - r l) := by
  rw [eloApplyUpdate_apply, eloApplyUpdate_apply]
  by_cases h : w = l
  · subst h
    simp
  · rw [if_pos rfl, if_neg h, if_neg (fun hc => h hc.symm), if_pos rfl]
    ring

/-- The sum of the ratings over any finite key set containing both teams is
unchanged by the update. -/
theorem eloApplyUpdate_sum (r : ℕ → ℝ) (w l : ℕ) (u : ℝ) (S : Finset ℕ)
    (hw : w ∈ S) (hl : l ∈ S) :
    (S.sum fun t => eloApplyUpdate r w l u t) = S.sum r := by
  have hfun : ∀ t ∈ S, eloApplyUpdate r w l u t =
      r t + (if t = w then u else 0) - (if t = l then u else 0) :=
    fun t _ => eloApplyUpdate_apply r w l u t
  rw [Finset.sum_congr rfl hfun]
  rw [Finset.sum_sub_distrib, Finset.sum_add_distrib]
  rw [Finset.sum_ite_eq' S w (fun _ => u), Finset.sum_ite_eq' S l (fun _ => u)]
  rw [if_pos hw, if_pos hl]
  ring

namespace V2

/-- `K = 32` (v2 `compute_elo`). -/
def ELO_K : ℝ := 32

/-- `HOME_ADV = 3`. -/
def HOME_ADV : ℝ := 3

/-- Baseline rating `1500`. -/
def ELO_BASE : ℝ := 1500

/-- Signed home advantage used in the expected-score formula. -/
def homeAdv (loc : Loc) : ℝ :=
  match loc with
  | .H => HOME_ADV
  | .A => -HOME_ADV
  | .N => 0

/-- `expected_w = 1 / (1 + 10 ** ((elo[l] - elo[w] - adv) / 400))`. -/
noncomputable def expectedW (rw rl adv : ℝ) : ℝ :=
  1 / (1 + (10 : ℝ) ^ ((rl - rw - adv) / 400))

/-- `mov_mult = ln(|margin| + 1) * (2.2 / (0.001*(elo[w]-elo[l]) + 2.2))`. -/
noncomputable def movMult (margin : ℤ) (rw rl : ℝ) : ℝ :=
  Real.log (|(margin : ℝ)| + 1) * (22/10 / (1/1000 * (rw - rl) + 22/10))

/-- The update amount `K * mov_mult * (1 - expected_w)` for one game, read
off the post-insertion ratings. -/
noncomputable def gameUpdateAmount (r : ℕ → ℝ) (g : Game) : ℝ :=
  let adv := homeAdv g.wLoc
  let ew := expectedW (r g.wTeamID) (r g.lTeamID) adv
  let mov := movMult ((g.wScore : ℤ) - (g.lScore : ℤ)) (r g.wTeamID) (r g.lTeamID)
  ELO_K * mov * (1 - ew)

/-- Processing of one game inside `compute_elo` (lines 192-206): insert
unknown teams at the baseline, then apply the zero-sum update. -/
noncomputable def gameStep (st : EloState) (g : Game) : EloState :=
  let st1 := eloEnsure ELO_BASE st g.wTeamID
  let st2 := eloEnsure ELO_BASE st1 g.lTeamID
  let u := gameUpdateAmount st2.rating g
  { known := st2.known, rating := eloApplyUpdate st2.rating g.wTeamID g.lTeamID u }

/-- Season-start regression (lines 188-189):
`elo[tid] = elo[tid] * 0.75 + 1500 * 0.25` for every existing key. -/
noncomputable def seasonStart (st : EloState) : EloState :=
  { known := st.known
    rating := fun t => if t ∈ st.known then st.rating t * (75/100) + ELO_BASE * (25/100)
      else st.rating t }

end V2

namespace Unified

/-- `Config.ELO_BASE = 1000`. -/
def ELO_BASE : ℝ := 1000

/-- `Config.ELO_K = 100`. -/
def ELO_K : ℝ := 100

/-- `Config.ELO_DECAY = 0.33`. -/
noncomputable def ELO_DECAY : ℝ := 33/100

/-- `ew = 1 / (1 + 10 ** ((elo[l] - elo[w]) / Config.ELO_WIDTH))`,
`ELO_WIDTH = 400`; no home advantage in the unified engine. -/
noncomputable def expectedW (rw rl : ℝ) : ℝ :=
  1 / (1 + (10 : ℝ) ^ ((rl - rw) / 400))

/-- `mov_mult = np.log(abs(WScore - LScore) + 1)`. -/
noncomputable def movMult (margin : ℤ) : ℝ := Real.log (|(margin : ℝ)| + 1)

/-- `update = Config.ELO_K * mov_mult * (1 - ew)`. -/
noncomputable def gameUpdateAmount (r : ℕ → ℝ) (g : Game) : ℝ :=
  ELO_K * movMult ((g.wScore : ℤ) - (g.lScore : ℤ))
    * (1 - expectedW (r g.wTeamID) (r g.lTeamID))

/-- Processing of one game inside the unified `compute_elo` (lines 404-410);
the `defaultdict` inserts both teams at the baseline on first access, then
`elo[w] += update; elo[l] -= update`. -/
noncomputable def gameStep (st : EloState) (g : Game) : EloState :=
  let st1 := eloEnsure ELO_BASE st g.wTeamID
  let st2 := eloEnsure ELO_BASE st1 g.lTeamID
  let u := gameUpdateAmount st2.rating g
  { known := st2.known, rating := eloApplyUpdate st2.rating g.wTeamID g.lTeamID u }

/-- Season-start regression (lines 400-401):
`elo[team] = ELO_BASE + ELO_DECAY * (elo[team] - ELO_BASE)` for every key. -/
noncomputable def seasonStart (st : EloState) : EloState :=
  { known := st.known
    rating := fun t => if t ∈ st.known then ELO_BASE + ELO_DECAY * (st.rating t - ELO_BASE)
      else st.rating t }

end Unified

/-- Zero-sum shape shared by both engines: after the baseline insertions,
`elo[w] += u; elo[l] -= u` moves the winner up by exactly what it moves the
loser down, and keeps the sum over all keys unchanged. -/
theorem eloGameShape_zero_sum (base : ℝ) (st : EloState) (w l : ℕ) (u : ℝ) :
    let pre := eloEnsure base (eloEnsure base st w) l
    let post : EloState := { known := pre.known, rating := eloApplyUpdate pre.rating w l u }
    (post.rating w - pre.rating w = -(post.rating l - pre.rating l)) ∧
    (post.known.sum post.rating = pre.known.sum pre.rating) := by
  intro pre post
  constructor
  · exact eloApplyUpdate_gain_eq_neg_loss pre.rating w l u
  · apply eloApplyUpdate_sum
    · show w ∈ pre.known
      rw [show pre.known = insert l (eloEnsure base st w).known from eloEnsure_known base _ l,
          eloEnsure_known base st w]
      exact Finset.mem_insert_of_mem (Finset.mem_insert_self w _)
    · show l ∈ pre.known
      rw [show pre.known = insert l (eloEnsure base st w).known from eloEnsure_known base _ l]
      exact Finset.mem_insert_self l _

namespace V2

theorem gameStep_zero_sum_v2 (st : EloState) (g : Game) :
    let pre := eloEnsure ELO_BASE (eloEnsure ELO_BASE st g.wTeamID) g.lTeamID
    ((gameStep st g).rating g.wTeamID - pre.rating g.wTeamID =
      -((gameStep st g).rating g.lTeamID - pre.rating g.lTeamID)) ∧
    ((gameStep st g).known.sum (gameStep st g).rating = pre.known.sum pre.rating) :=
  eloGameShape_zero_sum ELO_BASE st g.wTeamID g.lTeamID
    (gameUpdateAmount (eloEnsure ELO_BASE (eloEnsure ELO_BASE st g.wTeamID) g.lTeamID).rating g)

theorem seasonStart_formula_v2 (st : EloState) (t : ℕ) (h : t ∈ st.known) :
    (seasonStart st).rating t = ELO_BASE + (75/100) * (st.rating t - ELO_BASE) := by
  unfold seasonStart ELO_BASE
  dsimp only
  rw [if_pos h]
  ring

end V2

namespace Unified

theorem gameStep_zero_sum_unified (st : EloState) (g : Game) :
    let pre := eloEnsure ELO_BASE (eloEnsure ELO_BASE st g.wTeamID) g.lTeamID
    ((gameStep st g).rating g.wTeamID - pre.rating g.wTeamID =
      -((gameStep st g).rating g.lTeamID - pre.rating g.lTeamID)) ∧
    ((gameStep st g).known.sum (gameStep st g).rating = pre.known.sum pre.rating) :=
  eloGameShape_zero_sum ELO_BASE st g.wTeamID g.lTeamID
    (gameUpdateAmount (eloEnsure ELO_BASE (eloEnsure ELO_BASE st g.wTeamID) g.lTeamID).rating g)

theorem seasonStart_formula_unified (st : EloState) (t : ℕ) (h : t ∈ st.known) :
    (seasonStart st).rating t = ELO_BASE + ELO_DECAY * (st.rating t - ELO_BASE) := by
  unfold seasonStart
  dsimp only
  rw [if_pos h]

end Unified

/-! ### Which games the Elo loops read (temporal-leakage model) -/

/-- Insertion into a day-sorted list. -/
def insertByDay (g : Game) : List Game → List Game
  | [] => [g]
  | h :: t => if g.dayNum ≤ h.dayNum then g :: h :: t else h :: insertByDay g t

/-- Sorting a list of games by day number (insertion sort; only
membership matters for the leakage property). -/
def sortByDay : List Game → List Game
  | [] => []
  | h :: t => insertByDay h (sortByDay t)

theorem mem_insertByDay (a g : Game) (l : List Game) :
    a ∈ insertByDay g l ↔ a = g ∨ a ∈ l := by
  induction l with
  | nil => simp [insertByDay]
  | cons h t ih =>
      unfold insertByDay
      by_cases hle : g.dayNum ≤ h.dayNum
      · rw [if_pos hle]
        simp
      · rw [if_neg hle]
        simp only [List.mem_cons, ih]
        tauto

theorem mem_sortByDay (a : Game) (l : List Game) : a ∈ sortByDay l ↔ a ∈ l := by
  induction l with
  | nil => simp [sortByDay]
  | cons h t ih =>
      unfold sortByDay
      rw [mem_insertByDay]
      simp only [List.mem_cons, ih]

/-- Insertion into an ascending list of naturals. -/
def insertNat (x : ℕ) : List ℕ → List ℕ
  | [] => [x]
  | h :: t => if x ≤ h then x :: h :: t else h :: insertNat x t

/-- Ascending insertion sort (`sorted(...)` in Python). -/
def sortNat : List ℕ → List ℕ
  | [] => []
  | h :: t => insertNat h (sortNat t)

namespace V2

/-- The games the v2 `compute_elo(reg, through_season)` loop body reads
(lines 186-206): `for season in range(2003, through_season + 1)`, each
each season sorted by day.  Membership in this list is exactly
"the Elo accumulation observes the game". -/
def eloProcessedGames (reg : List Game) (through_season : ℕ) : List Game :=
  (List.range' 2003 (through_season + 1 - 2003)).flatMap
    (fun s => sortByDay (reg.filter (fun g => g.season = s)))

end V2

namespace Unified

/-- The games the unified `compute_elo(regular, backtest_season)` loop body
reads (lines 396-410): iterate the sorted distinct seasons, but
`if season >= backtest_season: break` stops before the target season. -/
def eloProcessedGames (reg : List Game) (backtest_season : ℕ) : List Game :=
  ((sortNat (reg.map (fun g => g.season)).dedup).takeWhile (fun s => s < backtest_season)).flatMap
    (fun s => sortByDay (reg.filter (fun g => g.season = s)))

/-- A training/test row of the matchup table as seen by `train_model`
(only the `Season` column drives the split; `idx` keeps rows distinct). -/
structure TRow where
  season : ℕ
  idx : ℕ
deriving DecidableEq

/-- The maximum season of the training frame (0 on an empty frame). -/
def maxSeason (l : List TRow) : ℕ := l.foldl (fun m r => max m r.season) 0

/-- The train/test split of `train_model` (lines 649-656): train is
`Season < backtest`, test is `Season == backtest`; if the test frame is
empty the last training season is used as test instead. -/
def trainModelSplit (td : List TRow) (backtest_season : ℕ) : List TRow × List TRow :=
  let train := td.filter (fun r => r.season < backtest_season)
  let test := td.filter (fun r => r.season = backtest_season)
  if test.isEmpty then
    let last_season := maxSeason train
    (train.filter (fun r => r.season < last_season),
     train.filter (fun r => r.season = last_season))
  else (train, test)

/-- All rows handed to the `xgb.train` fitting call (lines 673-677): the
training matrix plus the eval set `dtest` used for early stopping. -/
def trainModelObservedRows (td : List TRow) (backtest_season : ℕ) : List TRow :=
  (trainModelSplit td backtest_season).1 ++ (trainModelSplit td backtest_season).2

theorem mem_eloProcessedGames_season_lt (reg : List Game) (backtest_season : ℕ)
    (g : Game) (h : g ∈ eloProcessedGames reg backtest_season) :
    g.season < backtest_season := by
  unfold eloProcessedGames at h
  rw [List.mem_flatMap] at h
  obtain ⟨s, hs, hg⟩ := h
  have hslt : s < backtest_season := by
    have := List.mem_takeWhile_imp hs
    simpa using this
  rw [mem_sortByDay, List.mem_filter] at hg
  have : g.season = s := by simpa using hg.2
  omega

theorem mem_trainModelSplit_fst_season_lt (td : List TRow) (backtest_season : ℕ)
    (r : TRow) (h : r ∈ (trainModelSplit td backtest_season).1) :
    r.season < backtest_season := by
  unfold trainModelSplit at h
  by_cases he : (td.filter (fun r => r.season = backtest_season)).isEmpty
  · rw [if_pos he] at h
    simp only [List.mem_filter] at h
    have := h.1.2
    simpa using this
  · rw [if_neg he] at h
    simp only [List.mem_filter] at h
    simpa using h.2

end Unified

/-! ### Step 2: player on/off fetch, injury fetch and patching (lines 999-1389) -/

/-- Insertion into a list descending by key `f`. -/
def insertDescBy {α : Type} (f : α → ℚ) (x : α) : List α → List α
  | [] => [x]
  | h :: t => if f h ≤ f x then x :: h :: t else h :: insertDescBy f x t

/-- `sort_values(..., ascending=False)` by key `f`. -/
def sortDescBy {α : Type} (f : α → ℚ) : List α → List α
  | [] => []
  | h :: t => insertDescBy f h (sortDescBy f t)

namespace Unified

/-- One player row of the Barttorvik feed after numeric coercion
(`fetch_player_stats`, lines 1013-1028): the fields the pipeline uses. -/
structure PlayerRow where
  player : String
  team : String
  bpm : ℚ
  min_pct : ℚ
  usg : ℚ
  ppg : ℚ
deriving DecidableEq

/-- `df["weighted_bpm"] = df["bpm"] * (df["min_pct"] / 100)` (line 1030). -/
def weightedBpm (p : PlayerRow) : ℚ := p.bpm * (p.min_pct / 100)

/-- One row of the per-team dependency frame built inside
`fetch_player_stats` (lines 1032-1051). -/
structure TeamDepRow where
  team : String
  team_total_bpm : ℚ
  star_player : String
  star_player_bpm : ℚ
  star_player_usg : ℚ
  star_player_ppg : ℚ
  star_dependency_pct : ℚ
  top2_dependency_pct : ℚ
deriving DecidableEq

/-- The loop body over one team group in `fetch_player_stats`
(lines 1033-1049): sort the group by weighted BPM descending, sum the
positive weighted BPMs, and derive star/dependency fields. -/
def team_dep_row (data : List PlayerRow) (t : String) : TeamDepRow :=
  let grp := data.filter (fun p => p.team = t)
  let s := sortDescBy weightedBpm grp
  let pos := s.filter (fun p => 0 < weightedBpm p)
  let total := (pos.map weightedBpm).sum
  let top1 := match s.head? with | some p => weightedBpm p | none => 0
  let top2 := if 1 < s.length then ((s.take 2).map weightedBpm).sum else top1
  { team := t
    team_total_bpm := roundDp 3 total
    star_player := match s.head? with | some p => p.player | none => ""
    star_player_bpm := roundDp 3 top1
    star_player_usg := match s.head? with | some p => roundDp 1 p.usg | none => 0
    star_player_ppg := match s.head? with | some p => roundDp 1 p.ppg | none => 0
    star_dependency_pct := roundDp 1 (if 0 < total then top1 / total * 100 else 50)
    top2_dependency_pct := roundDp 1 (if 0 < total then top2 / total * 100 else 50) }

/-- A player row of the returned frame, after the dependency columns are
merged back on `team` (line 1052). -/
structure FetchedPlayer where
  player : String
  team : String
  weighted_bpm : ℚ
  dep : TeamDepRow
deriving DecidableEq

/-- `fetch_player_stats` (lines 999-1054).  The `try/except` covers only the
network call and JSON parse: on any fetch failure the function prints a
warning and returns two empty frames (`.ok ([], [])`).  On a successful
fetch, execution continues past the handler; if the parsed player list is
empty the per-team frame `pd.DataFrame([])` has no columns at all, and
`df.merge(team_dep, on="team", how="left")` (line 1052) raises an uncaught
`KeyError` — modelled as `.error` (the exception propagates and aborts the
pipeline). -/
def fetch_player_stats (result : Except String (List PlayerRow)) :
    Except String (List FetchedPlayer × List TeamDepRow) :=
  match result with
  | .error _ => .ok ([], [])
  | .ok data =>
      let team_dep := ((data.map (fun p => p.team)).dedup).map (team_dep_row data)
      if team_dep.isEmpty then .error "KeyError: team"
      else
        let df := data.map (fun p =>
          { player := p.player
            team := p.team
            weighted_bpm := weightedBpm p
            dep := ((team_dep.find? (fun d => d.team = p.team)).getD (team_dep_row data p.team))
            : FetchedPlayer })
        .ok (df, team_dep)

/-- One raw ESPN injury record (the fields later code reads). -/
structure InjuryRec where
  player : String
  injury_status : String
deriving DecidableEq

/-- An injury record with the mapped severity column. -/
structure InjuryRecSev where
  player : String
  injury_status : String
  severity : ℕ
deriving DecidableEq

/-- `severity_map = {"Out": 3, "Doubtful": 2, "Questionable": 2,
"Day-To-Day": 1, "GTD": 1}` with `.fillna(1)` (lines 1092-1093). -/
def severityMap (status : String) : ℕ :=
  if status = "Out" then 3
  else if status = "Doubtful" then 2
  else if status = "Questionable" then 2
  else if status = "Day-To-Day" then 1
  else if status = "GTD" then 1
  else 1

/-- `fetch_injuries_espn` (lines 1057-1096): on any fetch failure the record
list stays empty; the severity column is added to whatever was parsed. -/
def fetch_injuries_espn (result : Except String (List InjuryRec)) : List InjuryRecSev :=
  match result with
  | .error _ => []
  | .ok recs => recs.map (fun r =>
      { player := r.player
        injury_status := r.injury_status
        severity := severityMap r.injury_status })

/-- `.lower().strip()` name normalisation. -/
def normName (s : String) : String := s.toLower.trim

/-- Player row after `merge_injury_impact`. -/
structure MergedPlayer where
  player : String
  team : String
  weighted_bpm : ℚ
  dep : TeamDepRow
  injury_status : String
  is_injured : Bool
  injury_severity : ℕ
  injury_bpm_impact : ℚ
deriving DecidableEq

/-- `sev_weight = {3: 1.0, 2: 0.5, 1: 0.2, 0: 0.0}` (line 1119). -/
def sevWeight (sev : ℕ) : ℚ :=
  if sev = 3 then 1
  else if sev = 2 then 1/2
  else if sev = 1 then 1/5
  else 0

/-- `merge_injury_impact` (lines 1099-1124): left-merge the injury feed on
the normalised player name (unmatched players get severity 0), then compute
the weighted-BPM injury impact. -/
def merge_injury_impact (df : List FetchedPlayer) (inj : List InjuryRecSev) :
    List MergedPlayer :=
  df.map (fun p =>
    let m := inj.find? (fun i => normName i.player = normName p.player)
    let sev : ℕ := match m with | some i => i.severity | none => 0
    let is_inj : Bool := decide (0 < sev)
    { player := p.player
      team := p.team
      weighted_bpm := p.weighted_bpm
      dep := p.dep
      injury_status := match m with | some i => i.injury_status | none => ""
      is_injured := is_inj
      injury_severity := sev
      injury_bpm_impact := if is_inj then roundDp 4 (p.weighted_bpm * sevWeight sev) else 0 })

/-- `Config.TOURNAMENT_TEAMS` (lines 119-132). -/
def TOURNAMENT_TEAMS : List String :=
  ["Duke", "Auburn", "Iowa St.", "Florida", "Tennessee", "Michigan St.",
   "Texas Tech", "Alabama", "Ole Miss", "Missouri", "Kentucky", "Arizona",
   "Oregon", "Clemson", "Kansas", "Virginia", "New Mexico", "McNeese",
   "San Diego St.", "Saint Mary\x27s", "Vanderbilt", "Yale", "Baylor",
   "Illinois", "Georgia", "Mississippi St.", "Marquette", "North Carolina",
   "UCLA", "Michigan", "Colorado", "Louisville", "Purdue", "Oklahoma",
   "BYU", "Wake Forest", "Dayton", "Memphis", "Kansas St.", "Texas A&M",
   "Arkansas", "UConn", "St. John\x27s", "Creighton", "Wisconsin", "Oregon St.",
   "VCU", "Nebraska", "Texas", "West Virginia", "Notre Dame", "Utah St.",
   "High Point", "Bryant", "Lipscomb", "Montana", "SIUE", "American",
   "Robert Morris", "Norfolk St.", "Wofford", "Omaha", "Stetson",
   "Longwood", "SIU Edwardsville", "Akron", "Stephen F. Austin"]

/-- `build_team_summary` (lines 1127-1164): per team, count injured players,
flag an injured star, sum the injury BPM impact, carry the dependency fields
and compute the upset-vulnerability score, then keep tournament teams. -/
def build_team_summary (merged : List MergedPlayer) (tournament : List String) :
    List TeamSummaryRow :=
  (((merged.map (fun p => p.team)).dedup).map (fun t =>
    let grp := merged.filter (fun p => p.team = t)
    let injured := grp.filter (fun p => p.is_injured)
    let top := sortDescBy (fun p => p.weighted_bpm) grp
    let star_injured := match top.head? with | some s => s.is_injured | none => false
    let d : TeamDepRow := match grp.head? with
      | some p => p.dep
      | none => { team := t, team_total_bpm := 0, star_player := "",
                  star_player_bpm := 0, star_player_usg := 0, star_player_ppg := 0,
                  star_dependency_pct := 50, top2_dependency_pct := 50 }
    let tib := roundDp 4 ((injured.map (fun p => p.injury_bpm_impact)).sum)
    let uv := roundDp 1 (npClip
      (d.star_dependency_pct * (4/10) + npClip (tib * 10) 0 30 +
        (if star_injured then 30 else 0)) 0 100)
    { team := t
      star_player := d.star_player
      star_player_bpm := d.star_player_bpm
      star_player_usg := d.star_player_usg
      star_player_ppg := d.star_player_ppg
      star_dependency_pct := d.star_dependency_pct
      top2_dependency_pct := d.top2_dependency_pct
      team_total_bpm := d.team_total_bpm
      star_is_injured := star_injured
      n_injured := injured.length
      n_out := (injured.filter (fun p => p.injury_severity = 3)).length
      team_total_injury_bpm := tib
      upset_vulnerability := uv
      : TeamSummaryRow })).filter (fun r => r.team ∈ tournament)

/-- One prediction record of `chatbot_predictions_base.json`; the `Option`
fields are written only by Step 2 (absent keys before patching). -/
structure Pred where
  t1_name : String
  t2_name : String
  t1_seed : ℤ
  t2_seed : ℤ
  model_win_prob : ℚ
  predicted_winner_name : String
  confidence : String
  model_win_prob_original : Option ℚ
  injury_adjusted : Option Bool
  t1_injury_adj : Option ℚ
  t2_injury_adj : Option ℚ
  upset_flag_v2 : Option UpsetFlagV2
  pick_flipped_by_injury : Option Bool
deriving DecidableEq

/-- The `lookup` dict of `run_step2` (line 1283), keyed by the normalised
team name (keys are distinct, so first match = dict lookup). -/
def lookupTeam (summary : List TeamSummaryRow) (name : String) :
    Option TeamSummaryRow :=
  summary.find? (fun r => normName r.team = name)

/-- The patch applied to one prediction in the `run_step2` loop
(lines 1286-1315), via `patch_prediction`. -/
def patch_pred (summary : List TeamSummaryRow) (pred : Pred) : Pred :=
  let r1 := lookupTeam summary (normName pred.t1_name)
  let r2 := lookupTeam summary (normName pred.t2_name)
  let pf := patch_prediction pred.model_win_prob pred.t1_seed pred.t2_seed r1 r2
  { pred with
    model_win_prob_original := some pf.model_win_prob_original
    model_win_prob := pf.model_win_prob
    injury_adjusted := some pf.injury_adjusted
    t1_injury_adj := some pf.t1_injury_adj
    t2_injury_adj := some pf.t2_injury_adj
    upset_flag_v2 := some pf.upset_flag
    confidence := pf.confidence
    pick_flipped_by_injury := some pf.pick_flipped_by_injury
    predicted_winner_name :=
      if pf.pick_flipped_by_injury then
        (if 1/2 < pf.model_win_prob then pred.t1_name else pred.t2_name)
      else pred.predicted_winner_name }

/-- `depth_label` (lines 1209-1213). -/
def depth_label (dep : ℚ) : String :=
  if 60 ≤ dep then "One-Man Show — very star dependent"
  else if 45 ≤ dep then "Star-Led — above average dependency"
  else if 30 ≤ dep then "Balanced — shared offensive load"
  else "Deep — distributed throughout roster"

/-- The on/off block written into a team profile (lines 1344-1353); fields
absent from the fallback dict (line 1364) are `none` there. -/
structure OnoffInfo where
  star_player : String
  star_dependency_pct : ℚ
  depth_label_text : String
  star_player_bpm : Option ℚ
  star_player_usg : Option ℚ
  star_player_ppg : Option ℚ
  top2_dependency_pct : Option ℚ
  team_total_bpm : Option ℚ
deriving DecidableEq

/-- The injuries block written into a team profile (lines 1354-1362 and the
fallback on line 1365). -/
structure InjuriesInfo where
  has_injuries : Bool
  star_is_injured : Bool
  n_injured : ℕ
  n_out : Option ℕ
  team_injury_bpm_lost : Option ℚ
  upset_vulnerability : Option ℚ
deriving DecidableEq

/-- One record of `team_profiles.json` (the fields Step 2 touches). -/
structure Profile where
  name : String
  onoff : Option OnoffInfo
  injuries : Option InjuriesInfo
deriving DecidableEq

/-- The per-profile patch of `run_step2` (lines 1337-1365). -/
def patch_profile (summary : List TeamSummaryRow) (profile : Profile) : Profile :=
  match lookupTeam summary (normName profile.name) with
  | some row =>
      { profile with
        onoff := some
          { star_player := row.star_player
            star_dependency_pct := row.star_dependency_pct
            depth_label_text := depth_label row.star_dependency_pct
            star_player_bpm := some row.star_player_bpm
            star_player_usg := some row.star_player_usg
            star_player_ppg := some row.star_player_ppg
            top2_dependency_pct := some row.top2_dependency_pct
            team_total_bpm := some row.team_total_bpm }
        injuries := some
          { has_injuries := decide (0 < row.n_injured)
            star_is_injured := row.star_is_injured
            n_injured := row.n_injured
            n_out := some row.n_out
            team_injury_bpm_lost := some row.team_total_injury_bpm
            upset_vulnerability := some row.upset_vulnerability } }
  | none =>
      { profile with
        onoff := some
          { star_player := ""
            star_dependency_pct := 50
            depth_label_text := "Unknown"
            star_player_bpm := none
            star_player_usg := none
            star_player_ppg := none
            top2_dependency_pct := none
            team_total_bpm := none }
        injuries := some
          { has_injuries := false
            star_is_injured := false
            n_injured := 0
            n_out := none
            team_injury_bpm_lost := none
            upset_vulnerability := none } }

/-- `run_step2` (lines 1251-1389): fetch both auxiliary feeds (fetch
failures degrade to empty frames inside the fetchers, but an uncaught
exception raised inside `fetch_player_stats` — see its doc comment —
propagates out of `run_step2` and aborts the pipeline, modelled as
`.error`); if the player frame is empty, skip patching and return the
inputs unchanged; otherwise merge, summarise and patch every prediction and
profile. -/
def run_step2 (playerFetch : Except String (List PlayerRow))
    (injuryFetch : Except String (List InjuryRec))
    (chatbot : List Pred) (profiles : List Profile) :
    Except String (List Pred × List Profile) :=
  match fetch_player_stats playerFetch with
  | .error e => .error e
  | .ok fetched =>
      let player_df := fetched.1
      let injury_df := fetch_injuries_espn injuryFetch
      if player_df.isEmpty then .ok (chatbot, profiles)
      else
        let merged := merge_injury_impact player_df injury_df
        let team_summary := build_team_summary merged TOURNAMENT_TEAMS
        .ok (chatbot.map (patch_pred team_summary),
             profiles.map (patch_profile team_summary))

end Unified

/-! ### Claim theorems -/

/-- A concrete game record used in counterexamples and witnesses. -/
def exampleGame (season wT lT wS lS : ℕ) : Game :=
  { season := season, dayNum := 10, wTeamID := wT, lTeamID := lT,
    wScore := wS, lScore := lS, wLoc := .N,
    wFGM := 25, wFGA := 60, wFGM3 := 8, wFGA3 := 20, wFTM := 12, wFTA := 18,
    wOR := 10, wDR := 22, wAst := 15, wTO := 11, wStl := 6, wBlk := 3,
    lFGM := 22, lFGA := 58, lFGM3 := 6, lFGA3 := 19, lFTM := 10, lFTA := 15,
    lOR := 9, lDR := 20, lAst := 12, lTO := 13, lStl := 5, lBlk := 2 }

/-- C1 counterexample: the claim "every model-fitting step reads only games
from seasons strictly before the target season" fails on the code.  With
target season 2025 (as hardcoded in the v2 `main`, which calls
`compute_elo(reg, 2025)`), the v2 Elo accumulation used for training
features processes a regular-season game of season 2025 itself; and the
unified `train_model` hands the target-season rows to the `xgb.train`
fitting call as its early-stopping eval set. -/
theorem c1_fitting_reads_target_season_cex :
    (exampleGame 2025 1 2 70 60) ∈ V2.eloProcessedGames [exampleGame 2025 1 2 70 60] 2025 ∧
    ¬ ((exampleGame 2025 1 2 70 60).season < 2025) ∧
    (⟨2025, 1⟩ : Unified.TRow) ∈
      Unified.trainModelObservedRows [⟨2024, 0⟩, ⟨2025, 1⟩] 2025 ∧
    ¬ ((⟨2025, 1⟩ : Unified.TRow).season < 2025) := by
  refine ⟨by decide, by decide, by decide, by decide⟩

/-- C1 (amended): the training rows used to fit the estimators are always
restricted to seasons strictly before the target season, and the unified
pipeline Elo accumulation stops before the target season — but (per the
counterexample) the v2 Elo accumulation and the unified early-stopping eval
set do observe target-season games. -/
theorem c1_prior_season_fitting_amended :
    (∀ (reg : List Game) (b : ℕ) (g : Game),
        g ∈ Unified.eloProcessedGames reg b → g.season < b) ∧
    (∀ (td : List Unified.TRow) (b : ℕ) (r : Unified.TRow),
        r ∈ (Unified.trainModelSplit td b).1 → r.season < b) :=
  ⟨fun reg b g h => Unified.mem_eloProcessedGames_season_lt reg b g h,
   fun td b r h => Unified.mem_trainModelSplit_fst_season_lt td b r h⟩

/-- C1 witness for the amended claim, at a concrete game list and row
table. -/
theorem c1_prior_season_fitting_witness :
    ((exampleGame 2024 1 2 70 60) ∈
        Unified.eloProcessedGames [exampleGame 2024 1 2 70 60] 2025 ∧
      (exampleGame 2024 1 2 70 60).season < 2025) ∧
    ((⟨2024, 0⟩ : Unified.TRow) ∈
        (Unified.trainModelSplit [⟨2024, 0⟩, ⟨2025, 1⟩] 2025).1 ∧
      (⟨2024, 0⟩ : Unified.TRow).season < 2025) :=
  ⟨⟨by decide,
    c1_prior_season_fitting_amended.1 [exampleGame 2024 1 2 70 60] 2025 _ (by decide)⟩,
   ⟨by decide,
    c1_prior_season_fitting_amended.2 [⟨2024, 0⟩, ⟨2025, 1⟩] 2025 _ (by decide)⟩⟩

/-- C2: in both Elo engines, each game update adds to the winner exactly
what it subtracts from the loser, so the sum of all stored ratings is
unchanged by any single game update (taken after the baseline insertion of
previously unseen teams, which is the state the update reads). -/
theorem c2_elo_zero_sum :
    ∀ (st : EloState) (g : Game),
      (let pre := eloEnsure V2.ELO_BASE (eloEnsure V2.ELO_BASE st g.wTeamID) g.lTeamID
       ((V2.gameStep st g).rating g.wTeamID - pre.rating g.wTeamID =
         -((V2.gameStep st g).rating g.lTeamID - pre.rating g.lTeamID)) ∧
       ((V2.gameStep st g).known.sum (V2.gameStep st g).rating =
         pre.known.sum pre.rating)) ∧
      (let pre := eloEnsure Unified.ELO_BASE (eloEnsure Unified.ELO_BASE st g.wTeamID) g.lTeamID
       ((Unified.gameStep st g).rating g.wTeamID - pre.rating g.wTeamID =
         -((Unified.gameStep st g).rating g.lTeamID - pre.rating g.lTeamID)) ∧
       ((Unified.gameStep st g).known.sum (Unified.gameStep st g).rating =
         pre.known.sum pre.rating)) :=
  fun st g => ⟨V2.gameStep_zero_sum_v2 st g, Unified.gameStep_zero_sum_unified st g⟩

/-- C3 counterexample: the final adjusted probability is NOT always exactly
`clip(base + team2_penalty - team1_penalty, 0.02, 0.98)`: the code rounds
the clipped value to 5 decimal places, so at base probability `0.123456`
(with no injury context on either side) the output is `0.12346`. -/
theorem c3_adjusted_prob_cex :
    (Unified.patch_prediction (123456/1000000) 1 16 none none).model_win_prob ≠
      npClip (123456/1000000 + (-(Unified.compute_injury_adj none))
        - (-(Unified.compute_injury_adj none))) (2/100) (98/100) := by
  have h0 : Unified.compute_injury_adj none = 0 := rfl
  have hL : (Unified.patch_prediction (123456/1000000) 1 16 none none).model_win_prob =
      12346/100000 := by
    show roundDp 5 (npClip ((123456/1000000 : ℚ) + Unified.compute_injury_adj none
      - Unified.compute_injury_adj none) (2/100) (98/100)) = 12346/100000
    rw [h0]
    have harg : (123456/1000000 : ℚ) + 0 - 0 = 123456/1000000 := by ring
    rw [harg]
    have hclip : npClip (123456/1000000 : ℚ) (2/100) (98/100) = 123456/1000000 := by
      unfold npClip
      rw [max_eq_left (by norm_num), min_eq_left (by norm_num)]
    rw [hclip]
    unfold roundDp bankersRound
    norm_num
  have hR : npClip (123456/1000000 + (-(Unified.compute_injury_adj none))
      - (-(Unified.compute_injury_adj none))) (2/100) (98/100) = 123456/1000000 := by
    rw [h0]
    have harg : (123456/1000000 : ℚ) + -0 - -0 = 123456/1000000 := by ring
    rw [harg]
    unfold npClip
    rw [max_eq_left (by norm_num), min_eq_left (by norm_num)]
  rw [hL, hR]
  norm_num

/-- C3 (amended): for any base probability and any pair of team context
records, the per-team penalty has magnitude at most the 0.15 cap, and the
final adjusted probability equals
`clip(base + team2_penalty - team1_penalty, 0.02, 0.98)` rounded to five
decimal places — hence it always lies within `[0.02, 0.98]`. -/
theorem c3_injury_adjustment_bounds_amended :
    ∀ (base : ℚ) (s1 s2 : ℤ) (r1 r2 : Option Unified.TeamSummaryRow),
      (-(15/100) ≤ Unified.compute_injury_adj r1 ∧ Unified.compute_injury_adj r1 ≤ 0) ∧
      ((Unified.patch_prediction base s1 s2 r1 r2).model_win_prob =
        roundDp 5 (npClip (base + (-(Unified.compute_injury_adj r2))
          - (-(Unified.compute_injury_adj r1))) (2/100) (98/100))) ∧
      (2/100 ≤ (Unified.patch_prediction base s1 s2 r1 r2).model_win_prob ∧
        (Unified.patch_prediction base s1 s2 r1 r2).model_win_prob ≤ 98/100) := by
  intro base s1 s2 r1 r2
  refine ⟨⟨Unified.neg_cap_le_compute_injury_adj r1, Unified.compute_injury_adj_nonpos r1⟩,
    ?_, roundDp5_clip_prob_lb _, roundDp5_clip_prob_ub _⟩
  have harg : base + (-(Unified.compute_injury_adj r2)) - (-(Unified.compute_injury_adj r1)) =
      base + Unified.compute_injury_adj r1 - Unified.compute_injury_adj r2 := by ring
  rw [harg]
  rfl

/-- C4: the archetype classifier is total and deterministic — every one of
the 5 x 5 x 3 tier combinations (including the Weak-tier fallback branches)
maps to exactly one label of the fixed label set, and the `The Unknown`
branch is unreachable for valid tier triples. -/
theorem c4_archetype_totality :
    ∀ (o d : Tier) (t : Tempo),
      Unified.assign_archetype_tiers o d t ∈ Unified.ARCHETYPE_LABELS ∧
      Unified.assign_archetype_tiers o d t ≠ "The Unknown" := by
  decide

/-- C5: both seed-implied probability functions return the configured
historical constant 0.993 for the pair (1, 16), exactly 0.5 for every
equal-seed pair, and complementary values summing to exactly 1 for every
pair queried in both orders. -/
theorem c5_seed_prob_algebra :
    ∀ a b : ℕ,
      Unified.get_seed_prob 1 16 = 993/1000 ∧
      V2.seed_implied_prob 1 16 = 993/1000 ∧
      Unified.get_seed_prob a a = 1/2 ∧
      V2.seed_implied_prob a a = 1/2 ∧
      Unified.get_seed_prob a b + Unified.get_seed_prob b a = 1 ∧
      V2.seed_implied_prob a b + V2.seed_implied_prob b a = 1 :=
  fun a b =>
    ⟨rfl, rfl, unified_seed_prob_diag a, v2_seed_prob_diag a,
     unified_seed_prob_reverse a b, v2_seed_prob_reverse a b⟩

/-- The unified aggregator output for a team whose only game of the season
is a loss. -/
def c6stats : Unified.SeasonStats :=
  Unified.compute_season_stats [exampleGame 2024 1 2 70 60] 2024 2

/-- C6: failing input for the unified `compute_season_stats`.  For a team
with one game and zero wins, the win-side group is empty, so `ppg`,
`opp_ppg`, `point_diff` and `tempo` come out NaN (while the
`np.where`-guarded ratios stay finite) — contradicting the claim that every
aggregated statistic of such a team is finite. -/
theorem c6_winless_team_nan :
    c6stats.ppg = none ∧ c6stats.opp_ppg = none ∧ c6stats.point_diff = none ∧
    c6stats.tempo = none ∧
    c6stats.losses.isSome = true ∧ c6stats.win_pct = some (1/2) ∧
    c6stats.pyth = some (1/2) ∧ c6stats.off_eff = some 100 :=
  ⟨rfl, rfl, rfl, rfl, rfl, rfl, rfl, rfl⟩

/-- C7: at a season boundary both engines replace the rating of every known team
by `baseline + decay * (rating - baseline)` with a decay strictly between 0
and 1 (0.75 for v2, 0.33 for unified), and a previously unseen team
starts at exactly the baseline rating (1500 resp. 1000). -/
theorem c7_season_boundary_regression :
    ∀ (st : EloState) (t : ℕ),
      (t ∈ st.known →
        (V2.seasonStart st).rating t = V2.ELO_BASE + (75/100) * (st.rating t - V2.ELO_BASE)) ∧
      ((0 : ℝ) < 75/100 ∧ (75/100 : ℝ) < 1) ∧
      (t ∉ st.known → (eloEnsure V2.ELO_BASE st t).rating t = V2.ELO_BASE) ∧
      (t ∈ st.known →
        (Unified.seasonStart st).rating t =
          Unified.ELO_BASE + Unified.ELO_DECAY * (st.rating t - Unified.ELO_BASE)) ∧
      ((0 : ℝ) < Unified.ELO_DECAY ∧ Unified.ELO_DECAY < 1) ∧
      (t ∉ st.known → (eloEnsure Unified.ELO_BASE st t).rating t = Unified.ELO_BASE) :=
  fun st t =>
    ⟨fun h => V2.seasonStart_formula_v2 st t h,
     ⟨by norm_num, by norm_num⟩,
     fun h => eloEnsure_rating_self_of_not_mem V2.ELO_BASE st t h,
     fun h => Unified.seasonStart_formula_unified st t h,
     ⟨by unfold Unified.ELO_DECAY; norm_num, by unfold Unified.ELO_DECAY; norm_num⟩,
     fun h => eloEnsure_rating_self_of_not_mem Unified.ELO_BASE st t h⟩

/-- A concrete Elo state for the C7 witness. -/
noncomputable def c7state : EloState := { known := {7}, rating := fun _ => 2000 }

/-- C7 witness: the regression formula at a known team (id 7) and the
baseline start at an unseen team (id 9). -/
theorem c7_season_boundary_regression_witness :
    ((V2.seasonStart c7state).rating 7 =
      V2.ELO_BASE + (75/100) * (c7state.rating 7 - V2.ELO_BASE)) ∧
    ((eloEnsure V2.ELO_BASE c7state 9).rating 9 = V2.ELO_BASE) ∧
    ((Unified.seasonStart c7state).rating 7 =
      Unified.ELO_BASE + Unified.ELO_DECAY * (c7state.rating 7 - Unified.ELO_BASE)) ∧
    ((eloEnsure Unified.ELO_BASE c7state 9).rating 9 = Unified.ELO_BASE) :=
  ⟨(c7_season_boundary_regression c7state 7).1 (by decide),
   (c7_season_boundary_regression c7state 9).2.2.1 (by decide),
   (c7_season_boundary_regression c7state 7).2.2.2.1 (by decide),
   (c7_season_boundary_regression c7state 9).2.2.2.2.2 (by decide)⟩

/-- C8: the Step-2 adjustment is a pure function of its inputs — two runs on
identical inputs produce identical patched records — and the patched record
retains the original unadjusted probability while its confidence tier and
upset classification are recomputed from the adjusted probability. -/
theorem c8_injury_patch_pure :
    ∀ (b₁ b₂ : ℚ) (s1₁ s2₁ s1₂ s2₂ : ℤ)
      (r1₁ r2₁ r1₂ r2₂ : Option Unified.TeamSummaryRow),
      b₁ = b₂ → s1₁ = s1₂ → s2₁ = s2₂ → r1₁ = r1₂ → r2₁ = r2₂ →
      Unified.patch_prediction b₁ s1₁ s2₁ r1₁ r2₁ =
        Unified.patch_prediction b₂ s1₂ s2₂ r1₂ r2₂ ∧
      (Unified.patch_prediction b₁ s1₁ s2₁ r1₁ r2₁).model_win_prob_original = b₁ ∧
      (Unified.patch_prediction b₁ s1₁ s2₁ r1₁ r2₁).confidence =
        Unified.get_confidence ((Unified.patch_prediction b₁ s1₁ s2₁ r1₁ r2₁).model_win_prob) ∧
      (Unified.patch_prediction b₁ s1₁ s2₁ r1₁ r2₁).upset_flag =
        Unified.compute_upset_flag_v2 s1₁ s2₁
          ((Unified.patch_prediction b₁ s1₁ s2₁ r1₁ r2₁).model_win_prob)
          (Unified.build_injury_ctx r1₁) (Unified.build_injury_ctx r2₁) := by
  intro b₁ b₂ s1₁ s2₁ s1₂ s2₂ r1₁ r2₁ r1₂ r2₂ hb hs1 hs2 hr1 hr2
  subst hb; subst hs1; subst hs2; subst hr1; subst hr2
  exact ⟨rfl, rfl, rfl, rfl⟩

/-- C8 witness at a concrete input pair. -/
theorem c8_injury_patch_pure_witness :
    Unified.patch_prediction (6/10) 1 16 none none =
      Unified.patch_prediction (6/10) 1 16 none none ∧
    (Unified.patch_prediction (6/10) 1 16 none none).model_win_prob_original = 6/10 ∧
    (Unified.patch_prediction (6/10) 1 16 none none).confidence =
      Unified.get_confidence ((Unified.patch_prediction (6/10) 1 16 none none).model_win_prob) ∧
    (Unified.patch_prediction (6/10) 1 16 none none).upset_flag =
      Unified.compute_upset_flag_v2 1 16
        ((Unified.patch_prediction (6/10) 1 16 none none).model_win_prob)
        (Unified.build_injury_ctx none) (Unified.build_injury_ctx none) :=
  c8_injury_patch_pure (6/10) (6/10) 1 16 1 16 none none none none rfl rfl rfl rfl rfl

/-- C9 counterexample: the claim is not true for an empty player dataset in
general.  On a *successful* fetch that parses to an empty player list, the
`try/except` of `fetch_player_stats` is already past: the per-team frame
`pd.DataFrame([])` has no columns and the merge on the team column raises an
uncaught `KeyError`, so the pipeline aborts before the `player_df.empty`
check of `run_step2` — it does not return the unpatched predictions and
profiles. -/
theorem c9_ok_empty_feed_crash_cex :
    Unified.run_step2 (Except.ok []) (Except.ok []) [] [] =
      Except.error "KeyError: team" ∧
    Unified.run_step2 (Except.ok []) (Except.ok []) [] [] ≠
      Except.ok ([], []) :=
  ⟨rfl, fun h => Except.noConfusion h⟩

/-- C9 (amended): every *failure* of an external auxiliary fetch is caught
and replaced by an empty dataset, and the pipeline continues to completion
rather than aborting — in particular, after a caught player-fetch failure
the player dataset is empty, patching is skipped and the unpatched
predictions and profiles are returned unchanged, and an injury-feed failure
never prevents a run with player data from completing.  (Per the
counterexample, a *successful* fetch of an empty player list instead
crashes the pipeline.) -/
theorem c9_fetch_degradation :
    ∀ (e : String) (injf : Except String (List Unified.InjuryRec))
      (cd : List Unified.Pred) (pd : List Unified.Profile)
      (p : Unified.PlayerRow) (ps : List Unified.PlayerRow),
      Unified.fetch_player_stats (Except.error e) = Except.ok ([], []) ∧
      Unified.fetch_injuries_espn (Except.error e) = [] ∧
      Unified.run_step2 (Except.error e) injf cd pd = Except.ok (cd, pd) ∧
      (∃ out, Unified.run_step2 (Except.ok (p :: ps)) injf cd pd = Except.ok out) := by
  intro e injf cd pd p ps
  refine ⟨rfl, rfl, rfl, ?_⟩
  have hne : ((((p :: ps).map (fun q => q.team)).dedup).map
      (Unified.team_dep_row (p :: ps))).isEmpty = false := by
    cases hd : ((p :: ps).map (fun q => q.team)).dedup with
    | nil =>
        have h0 : ((p :: ps).map (fun q => q.team)) = [] := (List.dedup_eq_nil _).mp hd
        simp at h0
    | cons x xs =>
        rfl
  unfold Unified.run_step2 Unified.fetch_player_stats
  simp only [hne]
  exact ⟨_, rfl⟩

/-- C10: in every matchup matrix, the two orientations of any archetype pair
record equal totals and complementary wins, so their win rates sum to
exactly 1; and any same-archetype pair with at least one recorded game has
win rate exactly 0.5. -/
theorem c10_matchup_matrix_complement :
    ∀ (rows : List Unified.MatchupRow) (A B : String),
      (Unified.build_matchup_matrix rows (A, B)).2 =
        (Unified.build_matchup_matrix rows (B, A)).2 ∧
      (Unified.build_matchup_matrix rows (A, B)).1 +
        (Unified.build_matchup_matrix rows (B, A)).1 =
        (Unified.build_matchup_matrix rows (A, B)).2 ∧
      Unified.matchup_win_rate rows (A, B) + Unified.matchup_win_rate rows (B, A) = 1 ∧
      (0 < (Unified.build_matchup_matrix rows (A, A)).2 →
        Unified.matchup_win_rate rows (A, A) = 1/2) :=
  fun rows A B =>
    ⟨Unified.build_total_symm rows A B,
     Unified.build_wins_complement rows A B,
     Unified.matchup_win_rate_sum rows A B,
     fun h => Unified.matchup_win_rate_diag rows A h⟩

/-- The single-row matrix input for the C10 witness. -/
def c10rows : List Unified.MatchupRow :=
  [{ t1_arch := "The Juggernaut", t2_arch := "The Juggernaut", t1_won := true }]

/-- C10 witness: a same-archetype pair with one recorded game has win rate
exactly 0.5. -/
theorem c10_matchup_matrix_complement_witness :
    0 < (Unified.build_matchup_matrix c10rows ("The Juggernaut", "The Juggernaut")).2 ∧
    Unified.matchup_win_rate c10rows ("The Juggernaut", "The Juggernaut") = 1/2 :=
  ⟨by decide,
   (c10_matchup_matrix_complement c10rows "The Juggernaut" "The Juggernaut").2.2.2 (by decide)⟩
